import Mathlib

/-
Verification development for the mcp_seo repository.

The development shallowly embeds the parts of the Python source that the
checked properties talk about:
  * the two provider HTTP clients
    (src/topvisor.py : class TopvisorAPI, src/logic/ahrefs.py : class AhrefsAPI),
  * the tool-level response normalization functions
    (src/tools/topvisor.py, src/tools/ahrefs.py and their duplicates in
     src/research_server.py),
  * the tool/prompt/resource session registry of the chat client
    (src/mcp_chatbot.py : class MCP_ChatBot).

Conventions of the embedding:
  * JSON values are the inductive type JVal below.  Python dicts are
    insertion-ordered association lists (CPython semantics: assigning to an
    existing key keeps its position, a new key is appended at the end).
  * The network is an oracle: each client method takes the transport outcome
    of its single HTTP request (an HttpOutcome) as an argument.
  * Python code that can raise is embedded as an Except computation; code
    that cannot raise past its boundary is a total function.
  * String scanning (split, splitlines, startswith, isdigit) is done over
    List Char with structural recursion so that concrete instances reduce
    in the kernel.  Only ASCII digits and the newline character Char 10 are
    modelled, which covers every input the properties mention.
  * json.dumps serialization is not modelled; a tool function is embedded as
    the top-level dictionary it passes to json.dumps.
-/

/-- A JSON value, the shape of the data the provider clients and tools pass
around (Python dict / list / str / int / bool / None). -/
inductive JVal where
  | null : JVal
  | str : String → JVal
  | int : Int → JVal
  | bool : Bool → JVal
  | arr : List JVal → JVal
  | obj : List (String × JVal) → JVal

/-- A Python dictionary with string keys, as an insertion-ordered
association list. -/
abbrev Dict := List (String × JVal)

/-- Python d[k] / d.get(k): first binding of the key, if any. -/
def alGet {α : Type} : List (String × α) → String → Option α
  | [], _ => none
  | (k, v) :: rest, key => if k == key then some v else alGet rest key

/-- Python d[k] = v: replace in place if the key exists (keeping its
position, as CPython dicts do), otherwise append at the end. -/
def alSet {α : Type} : List (String × α) → String → α → List (String × α)
  | [], key, v => [(key, v)]
  | (k, w) :: rest, key, v =>
    if k == key then (k, v) :: rest else (k, w) :: alSet rest key v

/-- Python `key in d` for a dict. -/
def alHasKey {α : Type} (d : List (String × α)) (key : String) : Bool :=
  (alGet d key).isSome

/-- Python truthiness of a JSON value (None, 0, "", [], {} are falsy). -/
def pyTruthy : JVal → Bool
  | .null => false
  | .bool b => b
  | .int n => !(n == 0)
  | .str s => !(s.data.isEmpty)
  | .arr l => !l.isEmpty
  | .obj d => !d.isEmpty

/-- Python truthiness of an optional string (None and "" are falsy); used
for `if not self.api_key` and `date1 or "auto"`. -/
def pyTruthyStr : Option String → Bool
  | none => false
  | some s => s != ""

/-- Python truthiness of an optional int (None and 0 are falsy); used for
`if folder_id:` and `if group_id:`. -/
def pyTruthyInt : Option Int → Bool
  | none => false
  | some n => !(n == 0)

/-- Value of an optional int under a truthiness guard (only consulted when
the option is `some`). -/
def optInt : Option Int → Int
  | none => 0
  | some n => n

/-- Python `type(v).__name__` for JSON values. -/
def pyTypeName : JVal → String
  | .null => "NoneType"
  | .str _ => "str"
  | .int _ => "int"
  | .bool _ => "bool"
  | .arr _ => "list"
  | .obj _ => "dict"

/-- Python str(v) as used in f-string interpolation by the tools.  The
properties only ever interpolate strings, numbers, booleans and None; the
repr of nested containers is summarized by its type name. -/
def pyStr : JVal → String
  | .null => "None"
  | .str s => s
  | .int n => toString n
  | .bool true => "True"
  | .bool false => "False"
  | .arr _ => "<list>"
  | .obj _ => "<dict>"

/-- Python len(v) for values that support it. -/
def pyLen : JVal → Option Nat
  | .arr l => some l.length
  | .str s => some s.data.length
  | .obj d => some d.length
  | _ => none

/-- Split a character list at every occurrence of the separator (the
semantics of Python str.split with an explicit one-character separator:
"".split(sep) = [""], and empty fields are kept). -/
def splitOnChar (sep : Char) : List Char → List (List Char)
  | [] => [[]]
  | c :: cs =>
    if c = sep then [] :: splitOnChar sep cs
    else
      match splitOnChar sep cs with
      | [] => [[c]]
      | h :: t => (c :: h) :: t

/-- Python s.split(sep) for a one-character separator. -/
def pySplit (s : String) (sep : Char) : List String :=
  (splitOnChar sep s.data).map String.mk

/-- Python s.splitlines() restricted to the newline character (the carriage
return variants never occur in the modelled inputs): split at Char 10 and
drop a trailing empty line. -/
def pySplitlines (s : String) : List String :=
  let parts := splitOnChar (Char.ofNat 10) s.data
  (if parts.getLast? = some [] then parts.dropLast else parts).map String.mk

/-- Python s.isdigit() restricted to ASCII digits (the Unicode digit
classes never occur in the modelled inputs): non-empty and all digits. -/
def pyIsDigit (s : String) : Bool :=
  !(s.data.isEmpty) && s.data.all Char.isDigit

/-- Python int(s) on a string of ASCII digits. -/
def digitsToNat (s : String) : Nat :=
  s.data.foldl (fun n c => 10 * n + (c.toNat - 48)) 0

/-- List-level prefix test, structural so concrete instances reduce. -/
def isPrefixList : List Char → List Char → Bool
  | [], _ => true
  | _ :: _, [] => false
  | p :: ps, c :: cs => p = c && isPrefixList ps cs

/-- Python s.startswith(p). -/
def pyStartsWith (s p : String) : Bool :=
  isPrefixList p.data s.data

/-
Transport layer.  Each client method performs exactly one HTTP request
(requests.post / requests.get with timeout=60); the outcome of that request
is the oracle input of the embedding.
-/

/-- Outcome of the single HTTP request a client method performs: an HTTP
response (with status code, body text, and the parsed JSON body when the
text is valid JSON), a requests.ConnectionError, or any other exception
raised while executing the request. -/
inductive HttpOutcome where
  | response (status_code : Nat) (text : String) (jsonBody : Option JVal)
  | connectionError
  | otherException (msg : String)

/-- True unless the outcome is an HTTP response with status code 200. -/
def non200 : HttpOutcome → Bool
  | .response code _ _ => !(code == 200)
  | _ => true

namespace TopvisorAPI

/-- Embeds TopvisorAPI.__init__ (src/topvisor.py lines 12-28): store the
credentials and fail with ValueError when the api_key is falsy (None or the
empty string).  The constructor performs no network request, which the
embedding reflects by taking no HttpOutcome: the result is determined by
the two credential values alone. -/
def init (user_id api_key : Option String) : Except String (Option String × String) :=
  if pyTruthyStr api_key then .ok (user_id, (api_key.getD ""))
  else .error "API key Topvisor not found! "

/-- Embeds TopvisorAPI._make_request (src/topvisor.py lines 30-75).  The
whole body is wrapped in try/except, so the method is total: every branch
returns a value.  On status 200 with csv=False it returns response.json()
(when the body is not valid JSON, the raised decode error is caught by the
generic except clause, whose message interpolates str(e), summarized here);
with csv=True it returns the body text under "result".  Statuses 401 and
403 get dedicated error envelopes, any other status a generic one carrying
the body as details. -/
def make_request (csvFlag : Bool) (o : HttpOutcome) : JVal :=
  match o with
  | .response code text body =>
    if code = 200 then
      if csvFlag then .obj [("result", .str text), ("status_code", .int 200)]
      else
        match body with
        | some j => j
        | none => .obj [("error", .str "Unexpected error: <JSONDecodeError>")]
    else if code = 401 then
      .obj [("error", .str "Invalid API key"), ("status_code", .int 401)]
    else if code = 403 then
      .obj [("error", .str "Insufficient access permissions"), ("status_code", .int 403)]
    else
      .obj [("error", .str ("API error " ++ toString code)), ("details", .str text)]
  | .connectionError =>
    .obj [("error", .str "No internet connection or API unavailable")]
  | .otherException msg =>
    .obj [("error", .str ("Unexpected error: " ++ msg))]

/-- Embeds TopvisorAPI.get_projects (src/topvisor.py lines 77-80). -/
def get_projects (o : HttpOutcome) : JVal := make_request false o

/-- Embeds the payload construction of TopvisorAPI.get_project_keywords
(src/topvisor.py lines 82-93): start from the required project id, then
add folder_id and group_id only when each one is truthy (so None and 0 are
both omitted). -/
def get_project_keywords_payload (project_id : Int) (folder_id group_id : Option Int) : Dict :=
  let payload : Dict := [("project_id", JVal.int project_id)]
  let payload :=
    if pyTruthyInt folder_id then alSet payload "folder_id" (.int (optInt folder_id))
    else payload
  if pyTruthyInt group_id then alSet payload "group_id" (.int (optInt group_id))
  else payload

/-- Embeds the request/response step of TopvisorAPI.get_project_keywords. -/
def get_project_keywords (o : HttpOutcome) : JVal := make_request false o

/-- Embeds the request/response step of TopvisorAPI.get_project_positions
(src/topvisor.py lines 95-139): the result is returned unchanged after
debug printing. -/
def get_project_positions (o : HttpOutcome) : JVal := make_request false o

/-- Embeds TopvisorAPI.get_positions_summary (src/topvisor.py lines 141-149). -/
def get_positions_summary (o : HttpOutcome) : JVal := make_request false o

/-- Embeds TopvisorAPI.get_project_competitors (src/topvisor.py lines 151-154). -/
def get_project_competitors (o : HttpOutcome) : JVal := make_request false o

/-- Embeds TopvisorAPI.get_keyword_folders (src/topvisor.py lines 176-179). -/
def get_keyword_folders (o : HttpOutcome) : JVal := make_request false o

/-- Embeds TopvisorAPI.get_keyword_groups (src/topvisor.py lines 181-187). -/
def get_keyword_groups (o : HttpOutcome) : JVal := make_request false o

/-- Embeds TopvisorAPI.get_balance_info (src/topvisor.py lines 189-192). -/
def get_balance_info (o : HttpOutcome) : JVal := make_request false o

/-- Embeds one row of the CSV produced by the regions export, as built in
TopvisorAPI.get_project_regions (src/topvisor.py lines 162-172): the fixed
column order row[0] .. row[5]. -/
def region_row (r : List String) : JVal :=
  .obj [("search_engine_key", .str (r.getD 0 "")),
        ("name", .str (r.getD 1 "")),
        ("country_code", .str (r.getD 2 "")),
        ("language", .str (r.getD 3 "")),
        ("region_device", .str (r.getD 4 "")),
        ("depth", .str (r.getD 5 ""))]

/-- Embeds TopvisorAPI.get_project_regions (src/topvisor.py lines 156-174).
The method has no try/except of its own: it indexes response["result"]
directly, so when _make_request returned an error envelope (any non-200
status or transport failure) the lookup raises KeyError, embedded as
Except.error.  Each CSV row is indexed at columns 0..5, so a row with
fewer than 6 fields raises IndexError (csv.reader quoting is not
modelled: the modelled bodies contain no quote characters). -/
def get_project_regions (o : HttpOutcome) : Except String JVal :=
  match make_request true o with
  | .obj d =>
    match alGet d "result" with
    | none => .error "KeyError: result"
    | some (.str text) =>
      let rows := (pySplitlines text).map (fun line => pySplit line ';')
      if rows.all (fun r => 6 ≤ r.length) then
        .ok (.obj [("result", .arr (rows.map region_row)),
                   ("status_code", (alGet d "status_code").getD (.int 200))])
      else .error "IndexError: list index out of range"
    | some _ => .error "AttributeError: splitlines"
  | _ => .error "TypeError: response is not a dict"

end TopvisorAPI

namespace AhrefsAPI

/-- Embeds AhrefsAPI.__init__ (src/logic/ahrefs.py lines 11-26): store the
key and fail with ValueError when it is falsy.  No network request is
performed: the result is determined by the key alone. -/
def init (api_key : Option String) : Except String String :=
  if pyTruthyStr api_key then .ok (api_key.getD "")
  else .error "API key Ahrefs not found! Please set AHREFS_API_KEY environment variable."

/-- Embeds AhrefsAPI._make_request (src/logic/ahrefs.py lines 28-76); like
the Topvisor variant but with a dedicated 429 branch and no CSV mode. -/
def make_request (o : HttpOutcome) : JVal :=
  match o with
  | .response code text body =>
    if code = 200 then
      match body with
      | some j => j
      | none => .obj [("error", .str "Unexpected error: <JSONDecodeError>")]
    else if code = 401 then
      .obj [("error", .str "Invalid API key"), ("status_code", .int 401)]
    else if code = 403 then
      .obj [("error", .str "Insufficient access permissions or credits"), ("status_code", .int 403)]
    else if code = 429 then
      .obj [("error", .str "Request limit exceeded"), ("status_code", .int 429)]
    else
      .obj [("error", .str ("API error " ++ toString code)), ("details", .str text)]
  | .connectionError =>
    .obj [("error", .str "No internet connection or API unavailable")]
  | .otherException msg =>
    .obj [("error", .str ("Unexpected error: " ++ msg))]

/-- Embeds AhrefsAPI.get_refdomains (src/logic/ahrefs.py lines 78-121):
the result of the single request is returned unchanged after debug
printing. -/
def get_refdomains (o : HttpOutcome) : JVal := make_request o

/-- Embeds AhrefsAPI.get_backlinks (src/logic/ahrefs.py lines 123-146). -/
def get_backlinks (o : HttpOutcome) : JVal := make_request o

/-- Embeds AhrefsAPI.get_organic_keywords (src/logic/ahrefs.py lines 148-178). -/
def get_organic_keywords (o : HttpOutcome) : JVal := make_request o

end AhrefsAPI

/-
Helper lemmas about the transport layer.
-/

/-- On every outcome other than an HTTP 200 response, the Topvisor request
helper returns a dictionary that carries an "error" key and no "result"
key. -/
theorem tv_make_request_error (csvFlag : Bool) (o : HttpOutcome) (h : non200 o = true) :
    ∃ d, TopvisorAPI.make_request csvFlag o = .obj d ∧
      alHasKey d "error" = true ∧ alGet d "result" = none := by
  cases o with
  | response code text body =>
    have hne : ¬ code = 200 := by simpa [non200] using h
    simp only [TopvisorAPI.make_request, if_neg hne]
    split
    · exact ⟨_, rfl, rfl, rfl⟩
    · split
      · exact ⟨_, rfl, rfl, rfl⟩
      · exact ⟨_, rfl, rfl, rfl⟩
  | connectionError => exact ⟨_, rfl, rfl, rfl⟩
  | otherException msg => exact ⟨_, rfl, rfl, rfl⟩

/-- On every outcome other than an HTTP 200 response, the Ahrefs request
helper returns a dictionary that carries an "error" key. -/
theorem ah_make_request_error (o : HttpOutcome) (h : non200 o = true) :
    ∃ d, AhrefsAPI.make_request o = .obj d ∧ alHasKey d "error" = true := by
  cases o with
  | response code text body =>
    have hne : ¬ code = 200 := by simpa [non200] using h
    simp only [AhrefsAPI.make_request, if_neg hne]
    split
    · exact ⟨_, rfl, rfl⟩
    · split
      · exact ⟨_, rfl, rfl⟩
      · split
        · exact ⟨_, rfl, rfl⟩
        · exact ⟨_, rfl, rfl⟩
  | connectionError => exact ⟨_, rfl, rfl⟩
  | otherException msg => exact ⟨_, rfl, rfl⟩

/-- On every outcome other than an HTTP 200 response, get_project_regions
raises: the error envelope returned by _make_request has no "result" key,
so the subscript response["result"] fails with KeyError. -/
theorem get_project_regions_raises (o : HttpOutcome) (h : non200 o = true) :
    TopvisorAPI.get_project_regions o = Except.error "KeyError: result" := by
  obtain ⟨d, hd, _, hr⟩ := tv_make_request_error true o h
  simp [TopvisorAPI.get_project_regions, hd, hr]

/-- C1, counterexample.  The claim asserts that every client method,
including get_project_regions, returns an envelope and never raises for
every non-200 status.  At HTTP status 401 get_project_regions raises a
KeyError (the error envelope has no "result" key), refuting the claim. -/
theorem c1_counterexample :
    TopvisorAPI.get_project_regions (HttpOutcome.response 401 "Unauthorized" none) =
      Except.error "KeyError: result" := rfl

/-- C1, amended.  For every outcome that is not an HTTP 200 response, the
request helpers of both clients and every simple client method built on
them return an error envelope (a dictionary carrying an "error" key) and
never raise; the one exception is get_project_regions, which always raises
a KeyError on such outcomes because it subscripts the error envelope at
the missing "result" key. -/
theorem c1_amended (o : HttpOutcome) (h : non200 o = true) :
    (∃ d, TopvisorAPI.get_projects o = .obj d ∧ alHasKey d "error" = true) ∧
    (∃ d, TopvisorAPI.get_project_keywords o = .obj d ∧ alHasKey d "error" = true) ∧
    (∃ d, TopvisorAPI.get_project_positions o = .obj d ∧ alHasKey d "error" = true) ∧
    (∃ d, TopvisorAPI.get_positions_summary o = .obj d ∧ alHasKey d "error" = true) ∧
    (∃ d, TopvisorAPI.get_project_competitors o = .obj d ∧ alHasKey d "error" = true) ∧
    (∃ d, TopvisorAPI.get_keyword_folders o = .obj d ∧ alHasKey d "error" = true) ∧
    (∃ d, TopvisorAPI.get_keyword_groups o = .obj d ∧ alHasKey d "error" = true) ∧
    (∃ d, TopvisorAPI.get_balance_info o = .obj d ∧ alHasKey d "error" = true) ∧
    (∃ d, AhrefsAPI.get_refdomains o = .obj d ∧ alHasKey d "error" = true) ∧
    (∃ d, AhrefsAPI.get_backlinks o = .obj d ∧ alHasKey d "error" = true) ∧
    (∃ d, AhrefsAPI.get_organic_keywords o = .obj d ∧ alHasKey d "error" = true) ∧
    TopvisorAPI.get_project_regions o = Except.error "KeyError: result" := by
  obtain ⟨d, hd, he, -⟩ := tv_make_request_error false o h
  obtain ⟨d2, hd2, he2⟩ := ah_make_request_error o h
  exact ⟨⟨d, hd, he⟩, ⟨d, hd, he⟩, ⟨d, hd, he⟩, ⟨d, hd, he⟩, ⟨d, hd, he⟩,
         ⟨d, hd, he⟩, ⟨d, hd, he⟩, ⟨d, hd, he⟩,
         ⟨d2, hd2, he2⟩, ⟨d2, hd2, he2⟩, ⟨d2, hd2, he2⟩,
         get_project_regions_raises o h⟩

/-- C1, witness: the amended theorem instantiated at the concrete outcome
HTTP 404 with body "Not Found". -/
theorem c1_witness :
    (∃ d, TopvisorAPI.get_projects (HttpOutcome.response 404 "Not Found" none) = .obj d ∧
       alHasKey d "error" = true) ∧
    (∃ d, TopvisorAPI.get_project_keywords (HttpOutcome.response 404 "Not Found" none) = .obj d ∧
       alHasKey d "error" = true) ∧
    (∃ d, TopvisorAPI.get_project_positions (HttpOutcome.response 404 "Not Found" none) = .obj d ∧
       alHasKey d "error" = true) ∧
    (∃ d, TopvisorAPI.get_positions_summary (HttpOutcome.response 404 "Not Found" none) = .obj d ∧
       alHasKey d "error" = true) ∧
    (∃ d, TopvisorAPI.get_project_competitors (HttpOutcome.response 404 "Not Found" none) = .obj d ∧
       alHasKey d "error" = true) ∧
    (∃ d, TopvisorAPI.get_keyword_folders (HttpOutcome.response 404 "Not Found" none) = .obj d ∧
       alHasKey d "error" = true) ∧
    (∃ d, TopvisorAPI.get_keyword_groups (HttpOutcome.response 404 "Not Found" none) = .obj d ∧
       alHasKey d "error" = true) ∧
    (∃ d, TopvisorAPI.get_balance_info (HttpOutcome.response 404 "Not Found" none) = .obj d ∧
       alHasKey d "error" = true) ∧
    (∃ d, AhrefsAPI.get_refdomains (HttpOutcome.response 404 "Not Found" none) = .obj d ∧
       alHasKey d "error" = true) ∧
    (∃ d, AhrefsAPI.get_backlinks (HttpOutcome.response 404 "Not Found" none) = .obj d ∧
       alHasKey d "error" = true) ∧
    (∃ d, AhrefsAPI.get_organic_keywords (HttpOutcome.response 404 "Not Found" none) = .obj d ∧
       alHasKey d "error" = true) ∧
    TopvisorAPI.get_project_regions (HttpOutcome.response 404 "Not Found" none) =
      Except.error "KeyError: result" :=
  c1_amended (HttpOutcome.response 404 "Not Found" none) rfl

/-- C8.  Constructing either provider client with an absent (None) or empty
API key raises ValueError; construction with a non-empty key succeeds.  In
both clients the constructor only stores credentials and headers and makes
no network request (the embedded constructors take no transport outcome at
all), so the failure happens before any network call could be attempted. -/
theorem c8_init_key_check :
    (∀ uid, TopvisorAPI.init uid none = .error "API key Topvisor not found! ") ∧
    (∀ uid, TopvisorAPI.init uid (some "") = .error "API key Topvisor not found! ") ∧
    (∀ uid k, k ≠ "" → TopvisorAPI.init uid (some k) = .ok (uid, k)) ∧
    (AhrefsAPI.init none =
      .error "API key Ahrefs not found! Please set AHREFS_API_KEY environment variable.") ∧
    (AhrefsAPI.init (some "") =
      .error "API key Ahrefs not found! Please set AHREFS_API_KEY environment variable.") ∧
    (∀ k, k ≠ "" → AhrefsAPI.init (some k) = .ok k) := by
  refine ⟨fun uid => rfl, fun uid => rfl, fun uid k hk => ?_, rfl, rfl, fun k hk => ?_⟩
  · have ht : pyTruthyStr (some k) = true := by simp [pyTruthyStr, hk]
    simp [TopvisorAPI.init, ht]
  · have ht : pyTruthyStr (some k) = true := by simp [pyTruthyStr, hk]
    simp [AhrefsAPI.init, ht]

/-- C8, witness: a concrete absent key fails, a concrete non-empty key
succeeds, for both clients. -/
theorem c8_witness :
    TopvisorAPI.init (some "1337") none = .error "API key Topvisor not found! " ∧
    TopvisorAPI.init (some "1337") (some "tvkey") = .ok (some "1337", "tvkey") ∧
    AhrefsAPI.init none =
      .error "API key Ahrefs not found! Please set AHREFS_API_KEY environment variable." ∧
    AhrefsAPI.init (some "ahkey") = .ok "ahkey" :=
  ⟨c8_init_key_check.1 (some "1337"),
   c8_init_key_check.2.2.1 (some "1337") "tvkey" (by decide),
   c8_init_key_check.2.2.2.1,
   c8_init_key_check.2.2.2.2.2 "ahkey" (by decide)⟩

/-- C10.  In TopvisorAPI.get_project_keywords the folder and group filters
are added to the request payload only when truthy, so passing 0 builds
exactly the payload built by passing None: filtering by a folder or group
whose id is 0 is impossible through this interface. -/
theorem c10_zero_filter_ignored :
    (∀ (project_id : Int) (group_id : Option Int),
      TopvisorAPI.get_project_keywords_payload project_id (some 0) group_id =
        TopvisorAPI.get_project_keywords_payload project_id none group_id) ∧
    (∀ (project_id : Int) (folder_id : Option Int),
      TopvisorAPI.get_project_keywords_payload project_id folder_id (some 0) =
        TopvisorAPI.get_project_keywords_payload project_id folder_id none) ∧
    (∀ (project_id : Int),
      TopvisorAPI.get_project_keywords_payload project_id (some 0) (some 0) =
        [("project_id", JVal.int project_id)]) := by
  refine ⟨fun pid gid => ?_, fun pid fid => ?_, fun pid => rfl⟩
  · simp [TopvisorAPI.get_project_keywords_payload, pyTruthyInt]
  · simp [TopvisorAPI.get_project_keywords_payload, pyTruthyInt]

/-
Tool / prompt / resource session registry of the chat client
(src/mcp_chatbot.py).  Connections are identified by a numeric id; the
registry self.sessions maps tool names, prompt names and resource URI
strings to the connection that serves them.
-/

namespace MCP_ChatBot

/-- The self.sessions dictionary: name or URI to connection id, a Python
dict and hence an insertion-ordered association list. -/
abbrev Sessions := List (String × Nat)

/-- Embeds the registration loops of MCP_ChatBot.connect_to_server
(src/mcp_chatbot.py lines 38-68): for every tool name, prompt name and
resource URI listed by the newly connected session, execute
self.sessions[name] = session. -/
def register_names (sessions : Sessions) (session : Nat) (names : List String) : Sessions :=
  names.foldl (fun acc n => alSet acc n session) sessions

/-- Embeds the call-time lookup self.sessions.get(content.name) of
MCP_ChatBot.process_query (src/mcp_chatbot.py lines 110-114): a single
dictionary lookup, none means the tool-not-found message with no retry. -/
def lookup_tool (sessions : Sessions) (name : String) : Option Nat :=
  alGet sessions name

/-- Embeds the fallback loop of MCP_ChatBot.get_resource (src/mcp_chatbot.py
lines 140-144): scan the registry in insertion order and take the first
key that starts with "papers://". -/
def first_papers : Sessions → Option Nat
  | [] => none
  | (k, s) :: rest => if pyStartsWith k "papers://" then some s else first_papers rest

/-- Embeds the session resolution of MCP_ChatBot.get_resource
(src/mcp_chatbot.py lines 136-148): exact lookup first; on a miss, only a
papers:// URI triggers the fallback scan; none means the resource-not-found
message. -/
def get_resource (sessions : Sessions) (uri : String) : Option Nat :=
  match alGet sessions uri with
  | some s => some s
  | none => if pyStartsWith uri "papers://" then first_papers sessions else none

end MCP_ChatBot

/-- Updating a key in a Python dict makes a subsequent lookup of that key
return the new value. -/
theorem alGet_alSet_self {α : Type} (d : List (String × α)) (k : String) (v : α) :
    alGet (alSet d k v) k = some v := by
  induction d with
  | nil => simp [alSet, alGet]
  | cons p rest ih =>
    obtain ⟨k0, v0⟩ := p
    by_cases h : k0 == k
    · simp [alSet, alGet, h]
    · simp [alSet, alGet, h, ih]

/-- C4, counterexample.  The claim says the first registrant wins when two
connected sub-services register the same name.  Registering the tool name
"search_papers" for connection 1 and then for connection 2 makes the
call-time lookup return connection 2, the later registrant, refuting the
claim. -/
theorem c4_counterexample :
    MCP_ChatBot.lookup_tool
      (MCP_ChatBot.register_names
        (MCP_ChatBot.register_names [] 1 ["search_papers"]) 2 ["search_papers"])
      "search_papers" = some 2 ∧ (2 : Nat) ≠ 1 :=
  ⟨rfl, by decide⟩

/-- C4, amended.  A call-time lookup of a tool name, prompt name or
resource URI is a single dictionary access with no retry and no failover;
when several connections registered the same name, the LAST registrant
wins, each later registration silently overwriting the earlier one: after
any prior registrations, registering a name for a session makes the lookup
of that name return exactly that session. -/
theorem c4_amended :
    (∀ (prior : MCP_ChatBot.Sessions) (session : Nat) (name : String),
      MCP_ChatBot.lookup_tool (MCP_ChatBot.register_names prior session [name]) name =
        some session) ∧
    (∀ (prior : MCP_ChatBot.Sessions) (s1 s2 : Nat) (name : String),
      MCP_ChatBot.lookup_tool
        (MCP_ChatBot.register_names (MCP_ChatBot.register_names prior s1 [name]) s2 [name])
        name = some s2) := by
  constructor
  · intro prior s name
    simpa [MCP_ChatBot.register_names, MCP_ChatBot.lookup_tool] using
      alGet_alSet_self prior name s
  · intro prior s1 s2 name
    simpa [MCP_ChatBot.register_names, MCP_ChatBot.lookup_tool] using
      alGet_alSet_self (alSet prior name s1) name s2

/-- The fallback scan returns the first entry, in registration order, whose
key starts with "papers://". -/
theorem first_papers_first_match (pre : MCP_ChatBot.Sessions) (k : String) (s : Nat)
    (post : MCP_ChatBot.Sessions)
    (hpre : ∀ p ∈ pre, pyStartsWith p.1 "papers://" = false)
    (hk : pyStartsWith k "papers://" = true) :
    MCP_ChatBot.first_papers (pre ++ (k, s) :: post) = some s := by
  induction pre with
  | nil => simp [MCP_ChatBot.first_papers, hk]
  | cons q qs ih =>
    have hq : pyStartsWith q.1 "papers://" = false := hpre q (by simp)
    have hqs : ∀ p ∈ qs, pyStartsWith p.1 "papers://" = false :=
      fun p hp => hpre p (by simp [hp])
    obtain ⟨qk, qv⟩ := q
    simpa [MCP_ChatBot.first_papers, hq] using ih hqs

/-- C7.  When the requested URI has no exact registration: a URI outside
the papers:// scheme resolves to not-found with no fallback, while a
papers:// URI falls back to the scan over the registry, which yields the
first registered key (in registration order) that starts with
"papers://" whenever one exists. -/
theorem c7_resource_lookup_fallback (sessions : MCP_ChatBot.Sessions) (uri : String)
    (hmiss : alGet sessions uri = none) :
    (pyStartsWith uri "papers://" = false →
      MCP_ChatBot.get_resource sessions uri = none) ∧
    (pyStartsWith uri "papers://" = true →
      MCP_ChatBot.get_resource sessions uri = MCP_ChatBot.first_papers sessions ∧
      ∀ pre k s post, sessions = pre ++ (k, s) :: post →
        (∀ p ∈ pre, pyStartsWith p.1 "papers://" = false) →
        pyStartsWith k "papers://" = true →
        MCP_ChatBot.get_resource sessions uri = some s) := by
  constructor
  · intro hns
    simp [MCP_ChatBot.get_resource, hmiss, hns]
  · intro hps
    have hbase : MCP_ChatBot.get_resource sessions uri = MCP_ChatBot.first_papers sessions := by
      simp [MCP_ChatBot.get_resource, hmiss, hps]
    refine ⟨hbase, fun pre k s post hdecomp hpre hk => ?_⟩
    rw [hbase, hdecomp]
    exact first_papers_first_match pre k s post hpre hk

/-- C7, witness: in a registry holding a tool name and two papers://
resources, an unregistered papers:// URI falls back to the first papers://
registration (connection 2), and an unregistered docs:// URI is
not-found. -/
theorem c7_witness :
    MCP_ChatBot.get_resource
      [("search_papers", 1), ("papers://folders", 2), ("papers://ml", 3)]
      "papers://quantum" = some 2 ∧
    MCP_ChatBot.get_resource
      [("search_papers", 1), ("papers://folders", 2), ("papers://ml", 3)]
      "docs://x" = none := by
  have h1 := (c7_resource_lookup_fallback
      [("search_papers", 1), ("papers://folders", 2), ("papers://ml", 3)]
      "papers://quantum" rfl).2 rfl
  have h2 := (c7_resource_lookup_fallback
      [("search_papers", 1), ("papers://folders", 2), ("papers://ml", 3)]
      "docs://x" rfl).1 rfl
  exact ⟨h1.2 [("search_papers", 1)] "papers://folders" 2 [("papers://ml", 3)]
      rfl (by decide) rfl, h2⟩

/-
Position-history parsing inside the tool get_topvisor_positions_history
(src/tools/topvisor.py lines 418-453 and the identical copy in
src/research_server.py).
-/

namespace ToolsTopvisor

/-- Embeds the record appended to positions_info for one positionsData
entry (src/tools/topvisor.py lines 438-453), given the components of the
already-split composite key: date = parts[0], project_id = parts[1],
region = parts[2]; position_numeric is int(position_value) when the value
is a digit string and None otherwise; is_not_ranking flags the literal
"--" token. -/
def position_record (keyword_name : String) (parts : List String)
    (position_value : String) : Dict :=
  [("keyword_name", .str keyword_name),
   ("date", .str (parts.getD 0 "")),
   ("position", .str position_value),
   ("project_id", .str (parts.getD 1 "")),
   ("region", .str (parts.getD 2 "")),
   ("position_numeric",
     if pyIsDigit position_value then .int (digitsToNat position_value) else .null),
   ("is_not_ranking", .bool (position_value == "--"))]

/-- Embeds the key handling for one positionsData entry
(src/tools/topvisor.py lines 429-453): split the composite key on ":" and
emit a record only when it has at least 3 components. -/
def parse_position_entry (keyword_name date_key position_value : String) : Option Dict :=
  let parts := pySplit date_key ':'
  if 3 ≤ parts.length then some (position_record keyword_name parts position_value)
  else none

end ToolsTopvisor

/-- C5.  For every positions-history entry whose composite key splits on
":" into at least 3 components, the emitted record binds date, project_id
and region to exactly the first, second and third components; a key with
fewer than 3 components produces no record. -/
theorem c5_position_key_parsing (kn dk pv : String) :
    (3 ≤ (pySplit dk ':').length →
      ToolsTopvisor.parse_position_entry kn dk pv =
        some (ToolsTopvisor.position_record kn (pySplit dk ':') pv) ∧
      alGet (ToolsTopvisor.position_record kn (pySplit dk ':') pv) "date" =
        some (.str ((pySplit dk ':').getD 0 "")) ∧
      alGet (ToolsTopvisor.position_record kn (pySplit dk ':') pv) "project_id" =
        some (.str ((pySplit dk ':').getD 1 "")) ∧
      alGet (ToolsTopvisor.position_record kn (pySplit dk ':') pv) "region" =
        some (.str ((pySplit dk ':').getD 2 ""))) ∧
    ((pySplit dk ':').length < 3 →
      ToolsTopvisor.parse_position_entry kn dk pv = none) := by
  constructor
  · intro h
    refine ⟨?_, rfl, rfl, rfl⟩
    simp [ToolsTopvisor.parse_position_entry, h]
  · intro h
    simp [ToolsTopvisor.parse_position_entry, Nat.not_le.mpr h]

/-- C5, witness: the composite key "2025-08-15:19294818:33" yields
date "2025-08-15", project_id "19294818", region "33". -/
theorem c5_witness :
    ToolsTopvisor.parse_position_entry "kw" "2025-08-15:19294818:33" "5" =
      some (ToolsTopvisor.position_record "kw"
        (pySplit "2025-08-15:19294818:33" ':') "5") ∧
    alGet (ToolsTopvisor.position_record "kw"
        (pySplit "2025-08-15:19294818:33" ':') "5") "date" =
      some (.str "2025-08-15") ∧
    alGet (ToolsTopvisor.position_record "kw"
        (pySplit "2025-08-15:19294818:33" ':') "5") "project_id" =
      some (.str "19294818") ∧
    alGet (ToolsTopvisor.position_record "kw"
        (pySplit "2025-08-15:19294818:33" ':') "5") "region" =
      some (.str "33") := by
  have h := (c5_position_key_parsing "kw" "2025-08-15:19294818:33" "5").1 (by decide)
  exact ⟨h.1, h.2.1, h.2.2.1, h.2.2.2⟩

/-- C6.  In every emitted positions-history record, the literal position
value "--" produces position_numeric = null and is_not_ranking = true,
while a digit-string position value produces position_numeric equal to its
integer value and is_not_ranking = false. -/
theorem c6_position_value_semantics (kn dk : String)
    (h3 : 3 ≤ (pySplit dk ':').length) :
    (ToolsTopvisor.parse_position_entry kn dk "--" =
       some (ToolsTopvisor.position_record kn (pySplit dk ':') "--") ∧
     alGet (ToolsTopvisor.position_record kn (pySplit dk ':') "--") "position_numeric" =
       some JVal.null ∧
     alGet (ToolsTopvisor.position_record kn (pySplit dk ':') "--") "is_not_ranking" =
       some (.bool true)) ∧
    (∀ pv, pyIsDigit pv = true →
     alGet (ToolsTopvisor.position_record kn (pySplit dk ':') pv) "position_numeric" =
       some (.int (digitsToNat pv)) ∧
     alGet (ToolsTopvisor.position_record kn (pySplit dk ':') pv) "is_not_ranking" =
       some (.bool false)) := by
  constructor
  · refine ⟨?_, rfl, rfl⟩
    simp [ToolsTopvisor.parse_position_entry, h3]
  · intro pv hd
    have hne : pv ≠ "--" := by
      intro he
      rw [he] at hd
      simp [pyIsDigit] at hd
    have hbeq : (pv == "--") = false := beq_eq_false_iff_ne.mpr hne
    constructor
    · simp [ToolsTopvisor.position_record, alGet, hd]
    · simp [ToolsTopvisor.position_record, alGet, hbeq]

/-- C6, witness: on the concrete key "2025-08-15:19294818:33", position
value "--" gives null / true and position value "5" gives 5 / false. -/
theorem c6_witness :
    alGet (ToolsTopvisor.position_record "kw"
        (pySplit "2025-08-15:19294818:33" ':') "--") "position_numeric" =
      some JVal.null ∧
    alGet (ToolsTopvisor.position_record "kw"
        (pySplit "2025-08-15:19294818:33" ':') "--") "is_not_ranking" =
      some (.bool true) ∧
    alGet (ToolsTopvisor.position_record "kw"
        (pySplit "2025-08-15:19294818:33" ':') "5") "position_numeric" =
      some (.int 5) ∧
    alGet (ToolsTopvisor.position_record "kw"
        (pySplit "2025-08-15:19294818:33" ':') "5") "is_not_ranking" =
      some (.bool false) := by
  have h := c6_position_value_semantics "kw" "2025-08-15:19294818:33" (by decide)
  have h5 := h.2 "5" (by decide)
  exact ⟨h.1.2.1, h.1.2.2, h5.1, h5.2⟩

/-
Tool layer (src/tools/topvisor.py, src/tools/ahrefs.py, and the deviating
duplicates in src/research_server.py).  Every tool function wraps its whole
body in try/except and returns json.dumps of an envelope dictionary; the
embedding of a tool is the dictionary passed to json.dumps.  Each tool
receives the combined outcome of constructing its client and performing
the client call as an argument of type Except String JVal: an error is an
exception raised by that step (the constructor ValueError when the key is
missing, or KeyError from get_project_regions), which the except clause of
the tool turns into its exception envelope.
-/

/-- Python v[key] for a string key: a value for a dict holding the key,
KeyError for a dict without it, TypeError otherwise. -/
def pySubscript (v : JVal) (key : String) : Except String JVal :=
  match v with
  | .obj d =>
    match alGet d key with
    | some x => .ok x
    | none => .error ("KeyError: " ++ key)
  | .arr _ => .error "TypeError: list indices must be integers"
  | .str _ => .error "TypeError: string indices must be integers"
  | _ => .error "TypeError: object is not subscriptable"

/-- Python v.get(key, default): only dicts have the method, every other
value raises AttributeError. -/
def pyGetAttr (v : JVal) (key : String) (dflt : JVal) : Except String JVal :=
  match v with
  | .obj d => .ok ((alGet d key).getD dflt)
  | _ => .error "AttributeError: get"

/-- Equality of a JSON value with a string under Python ==; only a string
value can be equal. -/
def strEqJVal (v : JVal) (s : String) : Bool :=
  match v with
  | .str t => t == s
  | _ => false

/-- Substring test over character lists (Python `needle in haystack` for
strings). -/
def containsSubList (needle : List Char) : List Char → Bool
  | [] => needle.isEmpty
  | c :: cs => isPrefixList needle (c :: cs) || containsSubList needle cs

/-- Python `key in v`: key membership for a dict, element equality for a
list, substring test for a string, TypeError for the rest. -/
def pyIn (key : String) : JVal → Except String Bool
  | .obj d => .ok (alHasKey d key)
  | .arr l => .ok (l.any (fun v => strEqJVal v key))
  | .str s => .ok (containsSubList key.data s.data)
  | v => .error ("TypeError: argument of type " ++ pyTypeName v ++ " is not iterable")

/-- Python `v and key in v` as used in every tool guard: short-circuit on a
falsy value, then the membership test (which may raise). -/
def pyAndIn (v : JVal) (key : String) : Except String Bool :=
  if pyTruthy v then pyIn key v else .ok false

/-- Python len(v) where the tool calls len; raises TypeError on a value
without a length. -/
def pyLenE (v : JVal) : Except String Nat :=
  match pyLen v with
  | some n => .ok n
  | none => .error ("TypeError: object of type " ++ pyTypeName v ++ " has no len")

/-- Python iteration `for x in v`: the items of a list, the keys of a dict,
the one-character strings of a string, TypeError for the rest. -/
def iter_items : JVal → Except String (List JVal)
  | .arr l => .ok l
  | .obj d => .ok (d.map (fun p => JVal.str p.1))
  | .str s => .ok (s.data.map (fun c => JVal.str (String.mk [c])))
  | v => .error ("TypeError: " ++ pyTypeName v ++ " object is not iterable")

/-- Map a fallible per-item transformation over a list, stopping at the
first raised exception (the semantics of the for loops building the
whitelisted info lists). -/
def mapExcept (f : JVal → Except String JVal) : List JVal → Except String (List JVal)
  | [] => .ok []
  | x :: xs =>
    match f x with
    | .error e => .error e
    | .ok y =>
      match mapExcept f xs with
      | .error e => .error e
      | .ok ys => .ok (y :: ys)

/-- Concatenating variant of mapExcept for loops that append several
records per item. -/
def concatMapExcept {β : Type} (f : β → Except String (List Dict)) :
    List β → Except String (List Dict)
  | [] => .ok []
  | x :: xs =>
    match f x with
    | .error e => .error e
    | .ok ys =>
      match concatMapExcept f xs with
      | .error e => .error e
      | .ok zs => .ok (ys ++ zs)

/-- The membership test `key in v` guarded by isinstance(v, dict), as the
positions-history tool performs it: no exception possible. -/
def isObjHasKey (v : JVal) (key : String) : Bool :=
  match v with
  | .obj d => alHasKey d key
  | _ => false

/-- Subscript or .get lookup used only under an isObjHasKey guard. -/
def jPeek (v : JVal) (key : String) : JVal :=
  match v with
  | .obj d => (alGet d key).getD .null
  | _ => .null

/-- JSON encoding of an optional string argument (None becomes null). -/
def optStrJ : Option String → JVal
  | none => .null
  | some s => .str s

/-- JSON encoding of an optional int argument (None becomes null). -/
def optIntJ : Option Int → JVal
  | none => .null
  | some n => .int n

/-- Python `date or "auto"` on an optional string argument. -/
def pyOrAuto : Option String → String
  | none => "auto"
  | some s => if s == "" then "auto" else s

/-- Python min(strings, default=d): first minimal element under the
lexicographic string order, or the default on an empty sequence. -/
def pyMinList (l : List String) (dflt : String) : String :=
  match l with
  | [] => dflt
  | x :: xs => xs.foldl (fun m s => if s < m then s else m) x

/-- Python max(strings, default=d). -/
def pyMaxList (l : List String) (dflt : String) : String :=
  match l with
  | [] => dflt
  | x :: xs => xs.foldl (fun m s => if m < s then s else m) x

namespace ToolsTopvisor

/-- Embeds the balance extraction of check_topvisor_setup
(src/tools/topvisor.py lines 58-72): dict lookup, else first element of a
non-empty list when that element is a dict, else the "N/A" default. -/
def balance_of : JVal → JVal
  | .obj d => (alGet d "balance").getD (.str "N/A")
  | .arr (first :: _) =>
    match first with
    | .obj d => (alGet d "balance").getD (.str "N/A")
    | _ => .str "N/A"
  | _ => .str "N/A"

/-- Inner try body of check_topvisor_setup (src/tools/topvisor.py lines
38-107).  The raw_result field holds result_data itself; the truncation of
representations longer than 500 characters is not modelled. -/
def check_setup_core (call : Except String JVal) : Except String Dict :=
  match call with
  | .error e => .error e
  | .ok result =>
    match pyAndIn result "error" with
    | .error e => .error e
    | .ok true =>
      match pySubscript result "error" with
      | .error e => .error e
      | .ok ev =>
        .ok [("status", .str "warning"),
             ("message", .str ("API key found, but there is a problem: " ++ pyStr ev)),
             ("checks", .obj [("env_file", .bool true), ("api_key_set", .bool true),
                              ("api_connection", .bool false)]),
             ("help", .str "Check API key validity and account balance")]
    | .ok false =>
      match pyAndIn result "result" with
      | .error e => .error e
      | .ok true =>
        match pySubscript result "result" with
        | .error e => .error e
        | .ok result_data =>
          .ok [("status", .str "success"),
               ("message", .str ("Everything is set up correctly! Balance: " ++
                                 pyStr (balance_of result_data))),
               ("checks", .obj [("env_file", .bool true), ("api_key_set", .bool true),
                                ("api_connection", .bool true)]),
               ("balance", balance_of result_data),
               ("result_type", .str (pyTypeName result_data)),
               ("raw_result", result_data)]
      | .ok false =>
        .ok [("status", .str "error"),
             ("message", .str "Unexpected response from API"),
             ("checks", .obj [("env_file", .bool true), ("api_key_set", .bool true),
                              ("api_connection", .bool false)])]

/-- Embeds check_topvisor_setup (src/tools/topvisor.py lines 9-146 and the
identical copy in src/research_server.py).  The error_details field of the
connection-error envelope is summarized by the error message; the extra
likely_cause/suggestion keys added for AttributeError are not modelled. -/
def check_topvisor_setup (env_file : Bool) (api_key : Option String)
    (call : Except String JVal) : Dict :=
  if !(pyTruthyStr api_key) then
    [("status", .str "error"), ("message", .str "API key not found"),
     ("checks", .obj [("env_file", .bool env_file), ("api_key_set", .bool false),
                      ("api_connection", .bool false)]),
     ("help", .str "Create .env file and add TOPVISOR_API_KEY=your_key")]
  else
    match check_setup_core call with
    | .ok d => d
    | .error e =>
      [("status", .str "error"),
       ("message", .str ("API connection error: " ++ e)),
       ("checks", .obj [("env_file", .bool env_file),
                        ("api_key_set", .bool (pyTruthyStr api_key)),
                        ("api_connection", .bool false)]),
       ("error_details", .obj [("error_type", .str "Exception"),
                               ("error_message", .str e)]),
       ("help", .str "Check internet connection and API key validity")]

/-- Outer except clause of check_topvisor_setup (src/tools/topvisor.py
lines 137-146); unreachable through the embedded branches but part of the
envelope surface of the tool. -/
def check_topvisor_setup_outer_exc (e : String) : Dict :=
  [("status", .str "error"), ("message", .str ("Setup check error: " ++ e)),
   ("help", .str "See TOPVISOR_SETUP.md file for instructions")]

/-- Embeds the per-project whitelist of get_topvisor_projects
(src/tools/topvisor.py lines 179-187): a fixed set of fields, missing ones
resolving to null; a non-dict item raises AttributeError at the first .get
call. -/
def project_info (p : JVal) : Except String JVal :=
  match p with
  | .obj d =>
    .ok (.obj [("id", (alGet d "id").getD .null),
               ("name", (alGet d "name").getD .null),
               ("url", (alGet d "url").getD .null),
               ("status", (alGet d "status").getD .null),
               ("created", (alGet d "date_add").getD .null)])
  | _ => .error "AttributeError: get"

/-- Try body of get_topvisor_projects (src/tools/topvisor.py lines 156-207). -/
def projects_core (call : Except String JVal) : Except String Dict :=
  match call with
  | .error e => .error e
  | .ok result =>
    match pyAndIn result "error" with
    | .error e => .error e
    | .ok true =>
      match pySubscript result "error" with
      | .error e => .error e
      | .ok ev =>
        match pyGetAttr result "details" (.str "Check TOPVISOR_SETUP.md file for setup") with
        | .error e => .error e
        | .ok det =>
          .ok [("status", .str "error"),
               ("message", .str ("API error: " ++ pyStr ev)),
               ("details", det)]
    | .ok false =>
      match pyAndIn result "result" with
      | .error e => .error e
      | .ok true =>
        match pySubscript result "result" with
        | .error e => .error e
        | .ok projects =>
          match iter_items projects with
          | .error e => .error e
          | .ok items =>
            match mapExcept project_info items with
            | .error e => .error e
            | .ok project_info_list =>
              .ok [("status", .str "success"),
                   ("projects", .arr project_info_list),
                   ("total_count", .int project_info_list.length)]
      | .ok false =>
        .ok [("status", .str "error"),
             ("message", .str "Failed to get project data"),
             ("help", .str "Check TOPVISOR_SETUP.md file for API key setup")]

/-- Embeds get_topvisor_projects (src/tools/topvisor.py lines 149-218 and
the identical copy in src/research_server.py). -/
def get_topvisor_projects (call : Except String JVal) : Dict :=
  match projects_core call with
  | .ok d => d
  | .error e =>
    [("status", .str "error"),
     ("message", .str ("Error getting projects: " ++ e)),
     ("help", .str "Create .env file with TOPVISOR_API_KEY. See TOPVISOR_SETUP.md")]

/-- Embeds the per-keyword whitelist of get_topvisor_keywords
(src/tools/topvisor.py lines 245-254). -/
def keyword_info (p : JVal) : Except String JVal :=
  match p with
  | .obj d =>
    .ok (.obj [("id", (alGet d "id").getD .null),
               ("name", (alGet d "name").getD .null),
               ("folder_id", (alGet d "folder_id").getD .null),
               ("group_id", (alGet d "group_id").getD .null),
               ("url", (alGet d "url").getD .null),
               ("tags", (alGet d "tags").getD (.arr []))])
  | _ => .error "AttributeError: get"

/-- Try body of get_topvisor_keywords (src/tools/topvisor.py lines 237-274);
note there is no "error" key check in this tool, an error envelope from the
client falls into the generic failure branch. -/
def keywords_core (project_id : Int) (call : Except String JVal) : Except String Dict :=
  match call with
  | .error e => .error e
  | .ok result =>
    match pyAndIn result "result" with
    | .error e => .error e
    | .ok true =>
      match pySubscript result "result" with
      | .error e => .error e
      | .ok keywords =>
        match iter_items keywords with
        | .error e => .error e
        | .ok items =>
          match mapExcept keyword_info items with
          | .error e => .error e
          | .ok keywords_info =>
            .ok [("status", .str "success"),
                 ("project_id", .int project_id),
                 ("keywords", .arr keywords_info),
                 ("total_count", .int keywords_info.length)]
    | .ok false =>
      .ok [("status", .str "error"),
           ("message", .str "Failed to get keyword data")]

/-- Embeds get_topvisor_keywords (src/tools/topvisor.py lines 221-284 and
the identical copy in src/research_server.py). -/
def get_topvisor_keywords (project_id : Int) (call : Except String JVal) : Dict :=
  match keywords_core project_id call with
  | .ok d => d
  | .error e =>
    [("status", .str "error"),
     ("message", .str ("Error getting keywords: " ++ e))]

end ToolsTopvisor

namespace ToolsTopvisor

/-- Keyword name of an emitted positions record (always stored as a
string by position_record). -/
def record_keyword_name (r : Dict) : String :=
  match alGet r "keyword_name" with
  | some (.str s) => s
  | _ => ""

/-- Date field of an emitted positions record. -/
def record_date (r : Dict) : String :=
  match alGet r "date" with
  | some (.str s) => s
  | _ => ""

/-- Embeds the handling of one positionsData entry inside the keyword loop
of get_topvisor_positions_history (src/tools/topvisor.py lines 424-453):
only a dict carrying a "position" key contributes, its position value must
be a string (a non-string raises AttributeError at .isdigit), and the
record is produced by parse_position_entry. -/
def process_position_info (keyword_name date_key : String) (position_info : JVal) :
    Except String (List Dict) :=
  match position_info with
  | .obj d =>
    if alHasKey d "position" then
      match (alGet d "position").getD .null with
      | .str pv => .ok (parse_position_entry keyword_name date_key pv).toList
      | _ => .error "AttributeError: isdigit"
    else .ok []
  | _ => .ok []

/-- Embeds the per-keyword step of the positions loop
(src/tools/topvisor.py lines 418-453): non-dict items are skipped; the
keyword name defaults to "unknown" and positionsData to an empty dict;
positionsData.items() requires a dict, anything else raises
AttributeError.  Keyword names are strings in every provider response; a
non-string name, which Python would store unchanged in the record, is
summarized by its string interpolation. -/
def process_keyword (keyword_data : JVal) : Except String (List Dict) :=
  match keyword_data with
  | .obj d =>
    let keyword_name := pyStr ((alGet d "name").getD (.str "unknown"))
    match (alGet d "positionsData").getD (.obj []) with
    | .obj entries =>
      concatMapExcept
        (fun p => process_position_info keyword_name p.1 p.2) entries
    | _ => .error "AttributeError: items"
  | _ => .ok []

/-- Embeds the debug_info dictionary built at the start of
get_topvisor_positions_history (src/tools/topvisor.py lines 316-350). -/
def debug_base (project_id : Int) (regions_indexes : List String)
    (date1 date2 : Option String) (limit offset : Int) (result : JVal) : Dict :=
  [("sent_params", .obj [("project_id", .int project_id),
                         ("regions_indexes", .arr (regions_indexes.map JVal.str)),
                         ("date1", optStrJ date1), ("date2", optStrJ date2),
                         ("limit", .int limit), ("offset", .int offset)]),
   ("api_response_type", .str (pyTypeName result)),
   ("api_response_keys",
     match result with
     | .obj d => .arr (d.map (fun p => JVal.str p.1))
     | _ => .str "not_dict"),
   ("api_response_summary", .obj
     [("has_result_key", .bool (isObjHasKey result "result")),
      ("has_error_key", .bool (isObjHasKey result "error")),
      ("result_type",
        if isObjHasKey result "result" then .str (pyTypeName (jPeek result "result"))
        else .str "no_result"),
      ("result_length",
        if isObjHasKey result "result" then
          match pyLen (jPeek result "result") with
          | some n => .int n
          | none => .str "no_length"
        else .str "no_length")])]

/-- Embeds the success envelope of get_topvisor_positions_history
(src/tools/topvisor.py lines 455-479): counts computed from the collected
records, the distinct keyword-name count, and the min/max date range with
the "no_data" default. -/
def positions_success_env (project_id : Int) (regions_indexes : List String)
    (date1 date2 : Option String) (limit offset : Int)
    (positions_info : List Dict) (dbg : Dict) : Dict :=
  [("status", .str "success"),
   ("project_id", .int project_id),
   ("regions_indexes", .arr (regions_indexes.map JVal.str)),
   ("period", .str (pyOrAuto date1 ++ " - " ++ pyOrAuto date2)),
   ("positions", .arr (positions_info.map JVal.obj)),
   ("total_count", .int positions_info.length),
   ("unique_keywords", .int (positions_info.map record_keyword_name).dedup.length),
   ("date_range", .obj
     [("start", .str (pyMinList (positions_info.map record_date) "no_data")),
      ("end", .str (pyMaxList (positions_info.map record_date) "no_data"))]),
   ("limit", .int limit),
   ("offset", .int offset),
   ("debug", .obj dbg)]

/-- Try body of get_topvisor_positions_history (src/tools/topvisor.py
lines 309-488): the empty-response, API-error, result=None, success and
shape-failure branches, with the debug dictionary threaded the way the
source mutates it. -/
def positions_history_core (project_id : Int) (regions_indexes : List String)
    (date1 date2 : Option String) (limit offset : Int)
    (call : Except String JVal) : Except String Dict :=
  match call with
  | .error e => .error e
  | .ok result =>
    let dbg := debug_base project_id regions_indexes date1 date2 limit offset result
    if !(pyTruthy result) then
      .ok [("status", .str "error"),
           ("message", .str "Empty response from API"),
           ("debug", .obj dbg)]
    else if isObjHasKey result "error" then
      .ok [("status", .str "error"),
           ("message", .str ("API error: " ++ pyStr (jPeek result "error"))),
           ("debug", .obj dbg)]
    else if isObjHasKey result "result" then
      match jPeek result "result" with
      | .null =>
        .ok [("status", .str "error"),
             ("message", .str "API returned result=None (no position data for specified period)"),
             ("debug", .obj (alSet dbg "positions_details" (.obj
               [("result_data_type", .str "NoneType"),
                ("result_data_value", .null),
                ("reason", .str "API returned result=None, likely no position data for specified period")])))]
      | result_data =>
        let pd : Dict :=
          [("result_data_type", .str (pyTypeName result_data)),
           ("result_data_keys",
             match result_data with
             | .obj rd => .arr (rd.map (fun p => JVal.str p.1))
             | _ => .str "not_dict"),
           ("has_keywords_key", .bool (isObjHasKey result_data "keywords"))]
        if isObjHasKey result_data "keywords" then
          let keywords := jPeek result_data "keywords"
          let pd := pd ++
            [("keywords_count",
              match pyLen keywords with
              | some n => JVal.int n
              | none => .str "no_length")]
          match iter_items keywords with
          | .error e => .error e
          | .ok items =>
            match concatMapExcept process_keyword items with
            | .error e => .error e
            | .ok positions_info =>
              .ok (positions_success_env project_id regions_indexes date1 date2
                    limit offset positions_info
                    (alSet dbg "positions_details" (.obj pd)))
        else
          .ok (positions_success_env project_id regions_indexes date1 date2
                limit offset [] (alSet dbg "positions_details" (.obj pd)))
    else
      .ok [("status", .str "error"),
           ("message", .str "Failed to get position data"),
           ("debug", .obj dbg)]

/-- Embeds get_topvisor_positions_history (src/tools/topvisor.py lines
287-500 and the identical copy in src/research_server.py).  The except
envelope carries the exception type name, summarized by "Exception". -/
def get_topvisor_positions_history (project_id : Int) (regions_indexes : List String)
    (date1 date2 : Option String) (limit offset : Int)
    (call : Except String JVal) : Dict :=
  match positions_history_core project_id regions_indexes date1 date2 limit offset call with
  | .ok d => d
  | .error e =>
    [("status", .str "error"),
     ("message", .str ("Error getting positions: " ++ e)),
     ("error_type", .str "Exception"),
     ("error_details", .str e)]

/-- Try body of get_topvisor_positions_summary (src/tools/topvisor.py
lines 517-542). -/
def positions_summary_core (project_id : Int) (date1 date2 : Option String)
    (call : Except String JVal) : Except String Dict :=
  match call with
  | .error e => .error e
  | .ok result =>
    match pyAndIn result "result" with
    | .error e => .error e
    | .ok true =>
      match pySubscript result "result" with
      | .error e => .error e
      | .ok summary =>
        .ok [("status", .str "success"),
             ("project_id", .int project_id),
             ("period", .str (pyOrAuto date1 ++ " - " ++ pyOrAuto date2)),
             ("summary", summary)]
    | .ok false =>
      .ok [("status", .str "error"),
           ("message", .str "Failed to get position summary")]

/-- Embeds get_topvisor_positions_summary (src/tools/topvisor.py lines
503-549 and the identical copy in src/research_server.py). -/
def get_topvisor_positions_summary (project_id : Int) (date1 date2 : Option String)
    (call : Except String JVal) : Dict :=
  match positions_summary_core project_id date1 date2 call with
  | .ok d => d
  | .error e =>
    [("status", .str "error"), ("message", .str ("Error getting summary: " ++ e))]

/-- Embeds the per-competitor whitelist of get_topvisor_competitors
(src/tools/topvisor.py lines 570-578). -/
def competitor_info (p : JVal) : Except String JVal :=
  match p with
  | .obj d =>
    .ok (.obj [("id", (alGet d "id").getD .null),
               ("name", (alGet d "name").getD .null),
               ("url", (alGet d "url").getD .null),
               ("status", (alGet d "on").getD .null),
               ("enabled", (alGet d "enabled").getD .null)])
  | _ => .error "AttributeError: get"

/-- Try body of get_topvisor_competitors (src/tools/topvisor.py lines
562-598). -/
def competitors_core (project_id : Int) (call : Except String JVal) : Except String Dict :=
  match call with
  | .error e => .error e
  | .ok result =>
    match pyAndIn result "result" with
    | .error e => .error e
    | .ok true =>
      match pySubscript result "result" with
      | .error e => .error e
      | .ok competitors =>
        match iter_items competitors with
        | .error e => .error e
        | .ok items =>
          match mapExcept competitor_info items with
          | .error e => .error e
          | .ok competitors_info =>
            .ok [("status", .str "success"),
                 ("project_id", .int project_id),
                 ("competitors", .arr competitors_info),
                 ("total_count", .int competitors_info.length)]
    | .ok false =>
      .ok [("status", .str "error"),
           ("message", .str "Failed to get competitor data")]

/-- Embeds get_topvisor_competitors (src/tools/topvisor.py lines 552-608
and the identical copy in src/research_server.py). -/
def get_topvisor_competitors (project_id : Int) (call : Except String JVal) : Dict :=
  match competitors_core project_id call with
  | .ok d => d
  | .error e =>
    [("status", .str "error"), ("message", .str ("Error getting competitors: " ++ e))]

/-- Try body of get_topvisor_regions in src/tools/topvisor.py (lines
621-643): the raw region list is embedded unchanged and the count comes
from len(), which raises on a value without a length. -/
def regions_core (project_id : Int) (call : Except String JVal) : Except String Dict :=
  match call with
  | .error e => .error e
  | .ok result =>
    match pyAndIn result "result" with
    | .error e => .error e
    | .ok true =>
      match pySubscript result "result" with
      | .error e => .error e
      | .ok regions =>
        match pyLenE regions with
        | .error e => .error e
        | .ok n =>
          .ok [("status", .str "success"),
               ("project_id", .int project_id),
               ("regions", regions),
               ("total_count", .int n)]
    | .ok false =>
      .ok [("status", .str "error"), ("message", .str "Failed to get region data")]

/-- Embeds get_topvisor_regions (src/tools/topvisor.py lines 611-650).
The call argument is the outcome of TopvisorAPI.get_project_regions, which
raises KeyError on every non-200 outcome; the except clause of this tool
turns that into the exception envelope. -/
def get_topvisor_regions (project_id : Int) (call : Except String JVal) : Dict :=
  match regions_core project_id call with
  | .ok d => d
  | .error e =>
    [("status", .str "error"), ("message", .str ("Error getting regions: " ++ e))]

/-- Embeds the per-folder whitelist of get_topvisor_keyword_folders
(src/tools/topvisor.py lines 671-678). -/
def folder_info (p : JVal) : Except String JVal :=
  match p with
  | .obj d =>
    .ok (.obj [("id", (alGet d "id").getD .null),
               ("name", (alGet d "name").getD .null),
               ("parent_id", (alGet d "parent_id").getD .null),
               ("keywords_count", (alGet d "count_keywords").getD .null)])
  | _ => .error "AttributeError: get"

/-- Try body of get_topvisor_keyword_folders (src/tools/topvisor.py lines
663-695). -/
def folders_core (project_id : Int) (call : Except String JVal) : Except String Dict :=
  match call with
  | .error e => .error e
  | .ok result =>
    match pyAndIn result "result" with
    | .error e => .error e
    | .ok true =>
      match pySubscript result "result" with
      | .error e => .error e
      | .ok folders =>
        match iter_items folders with
        | .error e => .error e
        | .ok items =>
          match mapExcept folder_info items with
          | .error e => .error e
          | .ok folders_info =>
            .ok [("status", .str "success"),
                 ("project_id", .int project_id),
                 ("folders", .arr folders_info),
                 ("total_count", .int folders_info.length)]
    | .ok false =>
      .ok [("status", .str "error"), ("message", .str "Failed to get folder data")]

/-- Embeds get_topvisor_keyword_folders (src/tools/topvisor.py lines
653-702 and the identical copy in src/research_server.py). -/
def get_topvisor_keyword_folders (project_id : Int) (call : Except String JVal) : Dict :=
  match folders_core project_id call with
  | .ok d => d
  | .error e =>
    [("status", .str "error"), ("message", .str ("Error getting folders: " ++ e))]

/-- Embeds the per-group whitelist of get_topvisor_keyword_groups
(src/tools/topvisor.py lines 726-734). -/
def group_info (p : JVal) : Except String JVal :=
  match p with
  | .obj d =>
    .ok (.obj [("id", (alGet d "id").getD .null),
               ("name", (alGet d "name").getD .null),
               ("folder_id", (alGet d "folder_id").getD .null),
               ("keywords_count", (alGet d "count_keywords").getD .null),
               ("enabled", (alGet d "on").getD .null)])
  | _ => .error "AttributeError: get"

/-- Try body of get_topvisor_keyword_groups (src/tools/topvisor.py lines
718-752). -/
def groups_core (project_id : Int) (folder_id : Option Int)
    (call : Except String JVal) : Except String Dict :=
  match call with
  | .error e => .error e
  | .ok result =>
    match pyAndIn result "result" with
    | .error e => .error e
    | .ok true =>
      match pySubscript result "result" with
      | .error e => .error e
      | .ok groups =>
        match iter_items groups with
        | .error e => .error e
        | .ok items =>
          match mapExcept group_info items with
          | .error e => .error e
          | .ok groups_info =>
            .ok [("status", .str "success"),
                 ("project_id", .int project_id),
                 ("folder_id", optIntJ folder_id),
                 ("groups", .arr groups_info),
                 ("total_count", .int groups_info.length)]
    | .ok false =>
      .ok [("status", .str "error"), ("message", .str "Failed to get group data")]

/-- Embeds get_topvisor_keyword_groups (src/tools/topvisor.py lines
705-759 and the identical copy in src/research_server.py). -/
def get_topvisor_keyword_groups (project_id : Int) (folder_id : Option Int)
    (call : Except String JVal) : Dict :=
  match groups_core project_id folder_id call with
  | .ok d => d
  | .error e =>
    [("status", .str "error"), ("message", .str ("Error getting groups: " ++ e))]

/-- Try body of get_topvisor_balance (src/tools/topvisor.py lines 769-792):
the balance extraction calls .get on result["result"], so a non-dict
result raises AttributeError into the except clause. -/
def balance_core (call : Except String JVal) : Except String Dict :=
  match call with
  | .error e => .error e
  | .ok result =>
    match pyAndIn result "result" with
    | .error e => .error e
    | .ok true =>
      match pySubscript result "result" with
      | .error e => .error e
      | .ok balance_info =>
        match pyGetAttr balance_info "balance" .null with
        | .error e => .error e
        | .ok bal =>
          match pyGetAttr balance_info "currency" (.str "RUB") with
          | .error e => .error e
          | .ok curr =>
            match pyGetAttr balance_info "xml_limits" (.obj []) with
            | .error e => .error e
            | .ok xml =>
              .ok [("status", .str "success"),
                   ("balance", bal),
                   ("currency", curr),
                   ("xml_limits", xml),
                   ("account_info", balance_info)]
    | .ok false =>
      .ok [("status", .str "error"), ("message", .str "Failed to get balance data")]

/-- Embeds get_topvisor_balance (src/tools/topvisor.py lines 762-799 and
the identical copy in src/research_server.py). -/
def get_topvisor_balance (call : Except String JVal) : Dict :=
  match balance_core call with
  | .ok d => d
  | .error e =>
    [("status", .str "error"), ("message", .str ("Error getting balance: " ++ e))]

/-- Embeds get_topvisor_project_keywords (src/tools/topvisor.py lines
802-827 and the identical copy in src/research_server.py): the raw client
result is embedded unchanged under keywords_data with an unconditional
success status. -/
def get_topvisor_project_keywords (project_id : Int) (call : Except String JVal) : Dict :=
  match call with
  | .ok result =>
    [("status", .str "success"),
     ("project_id", .int project_id),
     ("keywords_data", result)]
  | .error e =>
    [("status", .str "error"), ("message", .str ("Error getting keywords: " ++ e))]

end ToolsTopvisor

namespace ToolsAhrefs

/-- Inner try body of check_ahrefs_setup (src/tools/ahrefs.py lines
37-103).  The raw_result field holds str(result)[:500] when result is
truthy and "None" otherwise; the string representation is summarized by
pyStr. -/
def check_setup_core (call : Except String JVal) : Except String Dict :=
  match call with
  | .error e => .error e
  | .ok result =>
    match pyAndIn result "error" with
    | .error e => .error e
    | .ok true =>
      match pySubscript result "error" with
      | .error e => .error e
      | .ok ev =>
        .ok [("status", .str "warning"),
             ("message", .str ("API key found, but there is a problem: " ++ pyStr ev)),
             ("checks", .obj [("env_file", .bool true), ("api_key_set", .bool true),
                              ("api_connection", .bool false)]),
             ("help", .str "Check API key validity and account balance")]
    | .ok false =>
      match pyAndIn result "refdomains" with
      | .error e => .error e
      | .ok true =>
        .ok [("status", .str "success"),
             ("message", .str "Everything is set up correctly! Ahrefs API is working"),
             ("checks", .obj [("env_file", .bool true), ("api_key_set", .bool true),
                              ("api_connection", .bool true)]),
             ("test_result", .str "Test request successful")]
      | .ok false =>
        .ok [("status", .str "error"),
             ("message", .str "Unexpected response from API"),
             ("checks", .obj [("env_file", .bool true), ("api_key_set", .bool true),
                              ("api_connection", .bool false)]),
             ("raw_result", .str (if pyTruthy result then pyStr result else "None"))]

/-- Embeds check_ahrefs_setup (src/tools/ahrefs.py lines 9-114 and the
identical copy in src/research_server.py). -/
def check_ahrefs_setup (env_file : Bool) (api_key : Option String)
    (call : Except String JVal) : Dict :=
  if !(pyTruthyStr api_key) then
    [("status", .str "error"), ("message", .str "API key not found"),
     ("checks", .obj [("env_file", .bool env_file), ("api_key_set", .bool false),
                      ("api_connection", .bool false)]),
     ("help", .str "Create .env file and add AHREFS_API_KEY=your_key")]
  else
    match check_setup_core call with
    | .ok d => d
    | .error e =>
      [("status", .str "error"),
       ("message", .str ("API connection error: " ++ e)),
       ("checks", .obj [("env_file", .bool env_file),
                        ("api_key_set", .bool (pyTruthyStr api_key)),
                        ("api_connection", .bool false)]),
       ("error_type", .str "Exception"),
       ("help", .str "Check internet connection and API key validity")]

/-- Outer except clause of check_ahrefs_setup (src/tools/ahrefs.py lines
105-114); unreachable through the embedded branches but part of the
envelope surface of the tool. -/
def check_ahrefs_setup_outer_exc (e : String) : Dict :=
  [("status", .str "error"), ("message", .str ("Setup check error: " ++ e)),
   ("help", .str "Make sure API key is added to .env file")]

/-- Try body of get_ahrefs_refdomains in src/tools/ahrefs.py (lines
130-170): error branch, success branch (status, target, refdomains, limit,
order_by — and no total_count), and the shape-failure branch. -/
def refdomains_core (target : String) (limit : Int)
    (call : Except String JVal) : Except String Dict :=
  match call with
  | .error e => .error e
  | .ok result =>
    match pyAndIn result "error" with
    | .error e => .error e
    | .ok true =>
      match pySubscript result "error" with
      | .error e => .error e
      | .ok ev =>
        match pyGetAttr result "details" (.str "Check API key and balance") with
        | .error e => .error e
        | .ok det =>
          .ok [("status", .str "error"),
               ("message", .str ("API error: " ++ pyStr ev)),
               ("details", det)]
    | .ok false =>
      match pyAndIn result "refdomains" with
      | .error e => .error e
      | .ok true =>
        match pySubscript result "refdomains" with
        | .error e => .error e
        | .ok refdomains =>
          .ok [("status", .str "success"),
               ("target", .str target),
               ("refdomains", refdomains),
               ("limit", .int limit),
               ("order_by", .str "domain_rating:desc")]
      | .ok false =>
        .ok [("status", .str "error"),
             ("message", .str "Failed to get referring domains data"),
             ("raw_result", .str (if pyTruthy result then pyStr result else "None"))]

/-- Embeds get_ahrefs_refdomains as defined in src/tools/ahrefs.py lines
117-180 (the src/research_server.py duplicate of this tool differs and is
embedded separately below). -/
def get_ahrefs_refdomains (target : String) (limit : Int)
    (call : Except String JVal) : Dict :=
  match refdomains_core target limit call with
  | .ok d => d
  | .error e =>
    [("status", .str "error"),
     ("message", .str ("Error getting referring domains: " ++ e))]

/-- Try body of get_ahrefs_backlinks in src/tools/ahrefs.py (lines
196-235). -/
def backlinks_core (target : String) (limit : Int)
    (call : Except String JVal) : Except String Dict :=
  match call with
  | .error e => .error e
  | .ok result =>
    match pyAndIn result "error" with
    | .error e => .error e
    | .ok true =>
      match pySubscript result "error" with
      | .error e => .error e
      | .ok ev =>
        match pyGetAttr result "details" (.str "Check API key and balance") with
        | .error e => .error e
        | .ok det =>
          .ok [("status", .str "error"),
               ("message", .str ("API error: " ++ pyStr ev)),
               ("details", det)]
    | .ok false =>
      match pyAndIn result "backlinks" with
      | .error e => .error e
      | .ok true =>
        match pySubscript result "backlinks" with
        | .error e => .error e
        | .ok backlinks =>
          .ok [("status", .str "success"),
               ("target", .str target),
               ("backlinks", backlinks),
               ("limit", .int limit),
               ("order_by", .str "domain_rating_source:desc")]
      | .ok false =>
        .ok [("status", .str "error"),
             ("message", .str "Failed to get backlinks data"),
             ("raw_result", .str (if pyTruthy result then pyStr result else "None"))]

/-- Embeds get_ahrefs_backlinks as defined in src/tools/ahrefs.py lines
183-245. -/
def get_ahrefs_backlinks (target : String) (limit : Int)
    (call : Except String JVal) : Dict :=
  match backlinks_core target limit call with
  | .ok d => d
  | .error e =>
    [("status", .str "error"),
     ("message", .str ("Error getting backlinks: " ++ e))]

/-- Try body of get_ahrefs_organic_keywords in src/tools/ahrefs.py (lines
264-306). -/
def organic_core (target : String) (limit : Int) (date : Option String)
    (call : Except String JVal) : Except String Dict :=
  match call with
  | .error e => .error e
  | .ok result =>
    match pyAndIn result "error" with
    | .error e => .error e
    | .ok true =>
      match pySubscript result "error" with
      | .error e => .error e
      | .ok ev =>
        match pyGetAttr result "details" (.str "Check API key and balance") with
        | .error e => .error e
        | .ok det =>
          .ok [("status", .str "error"),
               ("message", .str ("API error: " ++ pyStr ev)),
               ("details", det)]
    | .ok false =>
      match pyAndIn result "keywords" with
      | .error e => .error e
      | .ok true =>
        match pySubscript result "keywords" with
        | .error e => .error e
        | .ok keywords =>
          .ok [("status", .str "success"),
               ("target", .str target),
               ("keywords", keywords),
               ("limit", .int limit),
               ("order_by", .str "best_position:asc"),
               ("date", optStrJ date)]
      | .ok false =>
        .ok [("status", .str "error"),
             ("message", .str "Failed to get organic keywords data"),
             ("raw_result", .str (if pyTruthy result then pyStr result else "None"))]

/-- Embeds get_ahrefs_organic_keywords as defined in src/tools/ahrefs.py
lines 248-316. -/
def get_ahrefs_organic_keywords (target : String) (limit : Int) (date : Option String)
    (call : Except String JVal) : Dict :=
  match organic_core target limit date call with
  | .ok d => d
  | .error e =>
    [("status", .str "error"),
     ("message", .str ("Error getting organic keywords: " ++ e))]

end ToolsAhrefs

namespace ResearchServer

/-- Try body of the get_ahrefs_refdomains duplicate in
src/research_server.py (lines 1073-1112): same branches as the
src/tools/ahrefs.py version, but the success envelope carries a
total_count computed as len(refdomains) and order_by is a parameter. -/
def refdomains_core (target : String) (limit : Int) (order_by : String)
    (call : Except String JVal) : Except String Dict :=
  match call with
  | .error e => .error e
  | .ok result =>
    match pyAndIn result "error" with
    | .error e => .error e
    | .ok true =>
      match pySubscript result "error" with
      | .error e => .error e
      | .ok ev =>
        match pyGetAttr result "details" (.str "Check API key and balance") with
        | .error e => .error e
        | .ok det =>
          .ok [("status", .str "error"),
               ("message", .str ("API error: " ++ pyStr ev)),
               ("details", det)]
    | .ok false =>
      match pyAndIn result "refdomains" with
      | .error e => .error e
      | .ok true =>
        match pySubscript result "refdomains" with
        | .error e => .error e
        | .ok refdomains =>
          match pyLenE refdomains with
          | .error e => .error e
          | .ok n =>
            .ok [("status", .str "success"),
                 ("target", .str target),
                 ("refdomains", refdomains),
                 ("total_count", .int n),
                 ("limit", .int limit),
                 ("order_by", .str order_by)]
      | .ok false =>
        .ok [("status", .str "error"),
             ("message", .str "Failed to get referring domains data"),
             ("raw_result", .str (if pyTruthy result then pyStr result else "None"))]

/-- Embeds the get_ahrefs_refdomains duplicate registered by
src/research_server.py (lines 1059-1123). -/
def get_ahrefs_refdomains (target : String) (limit : Int) (order_by : String)
    (call : Except String JVal) : Dict :=
  match refdomains_core target limit order_by call with
  | .ok d => d
  | .error e =>
    [("status", .str "error"),
     ("message", .str ("Error getting referring domains: " ++ e))]

/-- Try body of the get_ahrefs_backlinks duplicate in
src/research_server.py: adds total_count = len(backlinks) to the success
envelope. -/
def backlinks_core (target : String) (limit : Int) (order_by : String)
    (call : Except String JVal) : Except String Dict :=
  match call with
  | .error e => .error e
  | .ok result =>
    match pyAndIn result "error" with
    | .error e => .error e
    | .ok true =>
      match pySubscript result "error" with
      | .error e => .error e
      | .ok ev =>
        match pyGetAttr result "details" (.str "Check API key and balance") with
        | .error e => .error e
        | .ok det =>
          .ok [("status", .str "error"),
               ("message", .str ("API error: " ++ pyStr ev)),
               ("details", det)]
    | .ok false =>
      match pyAndIn result "backlinks" with
      | .error e => .error e
      | .ok true =>
        match pySubscript result "backlinks" with
        | .error e => .error e
        | .ok backlinks =>
          match pyLenE backlinks with
          | .error e => .error e
          | .ok n =>
            .ok [("status", .str "success"),
                 ("target", .str target),
                 ("backlinks", backlinks),
                 ("total_count", .int n),
                 ("limit", .int limit),
                 ("order_by", .str order_by)]
      | .ok false =>
        .ok [("status", .str "error"),
             ("message", .str "Failed to get backlinks data"),
             ("raw_result", .str (if pyTruthy result then pyStr result else "None"))]

/-- Embeds the get_ahrefs_backlinks duplicate registered by
src/research_server.py (lines 1126-1190). -/
def get_ahrefs_backlinks (target : String) (limit : Int) (order_by : String)
    (call : Except String JVal) : Dict :=
  match backlinks_core target limit order_by call with
  | .ok d => d
  | .error e =>
    [("status", .str "error"),
     ("message", .str ("Error getting backlinks: " ++ e))]

/-- Try body of the get_ahrefs_organic_keywords duplicate in
src/research_server.py: adds total_count = len(keywords) to the success
envelope. -/
def organic_core (target : String) (limit : Int) (order_by : String)
    (date : Option String) (call : Except String JVal) : Except String Dict :=
  match call with
  | .error e => .error e
  | .ok result =>
    match pyAndIn result "error" with
    | .error e => .error e
    | .ok true =>
      match pySubscript result "error" with
      | .error e => .error e
      | .ok ev =>
        match pyGetAttr result "details" (.str "Check API key and balance") with
        | .error e => .error e
        | .ok det =>
          .ok [("status", .str "error"),
               ("message", .str ("API error: " ++ pyStr ev)),
               ("details", det)]
    | .ok false =>
      match pyAndIn result "keywords" with
      | .error e => .error e
      | .ok true =>
        match pySubscript result "keywords" with
        | .error e => .error e
        | .ok keywords =>
          match pyLenE keywords with
          | .error e => .error e
          | .ok n =>
            .ok [("status", .str "success"),
                 ("target", .str target),
                 ("keywords", keywords),
                 ("total_count", .int n),
                 ("limit", .int limit),
                 ("order_by", .str order_by),
                 ("date", optStrJ date)]
      | .ok false =>
        .ok [("status", .str "error"),
             ("message", .str "Failed to get organic keywords data"),
             ("raw_result", .str (if pyTruthy result then pyStr result else "None"))]

/-- Embeds the get_ahrefs_organic_keywords duplicate registered by
src/research_server.py (lines 1193-1263). -/
def get_ahrefs_organic_keywords (target : String) (limit : Int) (order_by : String)
    (date : Option String) (call : Except String JVal) : Dict :=
  match organic_core target limit order_by date call with
  | .ok d => d
  | .error e =>
    [("status", .str "error"),
     ("message", .str ("Error getting organic keywords: " ++ e))]

/-- Embeds the per-region whitelist of the get_topvisor_regions duplicate
in src/research_server.py (lines 730-741), which, unlike the
src/tools/topvisor.py version, maps each region through a fixed field
set. -/
def region_info (p : JVal) : Except String JVal :=
  match p with
  | .obj d =>
    .ok (.obj [("id", (alGet d "id").getD .null),
               ("searcher", (alGet d "searcher").getD .null),
               ("region_key", (alGet d "region_key").getD .null),
               ("region_name", (alGet d "region_name").getD .null),
               ("enabled", (alGet d "enabled").getD .null),
               ("device", (alGet d "device").getD .null)])
  | _ => .error "AttributeError: get"

/-- Try body of the get_topvisor_regions duplicate in
src/research_server.py (lines 724-757). -/
def regions_core (project_id : Int) (call : Except String JVal) : Except String Dict :=
  match call with
  | .error e => .error e
  | .ok result =>
    match pyAndIn result "result" with
    | .error e => .error e
    | .ok true =>
      match pySubscript result "result" with
      | .error e => .error e
      | .ok regions =>
        match iter_items regions with
        | .error e => .error e
        | .ok items =>
          match mapExcept region_info items with
          | .error e => .error e
          | .ok regions_info =>
            .ok [("status", .str "success"),
                 ("project_id", .int project_id),
                 ("regions", .arr regions_info),
                 ("total_count", .int regions_info.length)]
    | .ok false =>
      .ok [("status", .str "error"), ("message", .str "Failed to get region data")]

/-- Embeds the get_topvisor_regions duplicate registered by
src/research_server.py (lines 714-765). -/
def get_topvisor_regions (project_id : Int) (call : Except String JVal) : Dict :=
  match regions_core project_id call with
  | .ok d => d
  | .error e =>
    [("status", .str "error"), ("message", .str ("Error getting regions: " ++ e))]

/-- Embeds the paper record built by search_papers and returned by
extract_info (src/research_server.py lines 57-63 and 96): the fixed field
whitelist of the stored paper metadata. -/
def paper_info_record (title : String) (authors : List String)
    (summary pdf_url published : String) : Dict :=
  [("title", .str title),
   ("authors", .arr (authors.map JVal.str)),
   ("summary", .str summary),
   ("pdf_url", .str pdf_url),
   ("published", .str published)]

end ResearchServer

/-- C2, counterexample.  Normalizing a provider response with an empty
project list yields the success envelope; feeding that already-normalized
envelope back through the same normalization logic yields the
"Failed to get project data" error envelope, not the input: normalization
is not idempotent. -/
theorem c2_counterexample :
    ToolsTopvisor.get_topvisor_projects (.ok (.obj [("result", JVal.arr [])])) =
      [("status", .str "success"), ("projects", .arr []), ("total_count", .int 0)] ∧
    ToolsTopvisor.get_topvisor_projects
      (.ok (.obj [("status", .str "success"), ("projects", .arr []),
                  ("total_count", .int 0)])) =
      [("status", .str "error"), ("message", .str "Failed to get project data"),
       ("help", .str "Check TOPVISOR_SETUP.md file for API key setup")] ∧
    ([("status", JVal.str "error"), ("message", JVal.str "Failed to get project data"),
      ("help", JVal.str "Check TOPVISOR_SETUP.md file for API key setup")] : Dict) ≠
      [("status", JVal.str "success"), ("projects", JVal.arr []),
       ("total_count", JVal.int 0)] :=
  ⟨rfl, rfl, by simp⟩

/-- C2, amended.  Normalization is not idempotent: the tool-level
normalization branches on the "error" and "result" keys, and an
already-normalized success envelope carries neither, so feeding any such
non-empty envelope back through get_topvisor_projects yields the
"Failed to get project data" error envelope rather than the input. -/
theorem c2_amended (d : Dict) (hne : d ≠ [])
    (herr : alHasKey d "error" = false) (hres : alHasKey d "result" = false) :
    ToolsTopvisor.get_topvisor_projects (.ok (.obj d)) =
      [("status", .str "error"), ("message", .str "Failed to get project data"),
       ("help", .str "Check TOPVISOR_SETUP.md file for API key setup")] := by
  have ht : pyTruthy (.obj d) = true := by
    simp [pyTruthy, hne]
  simp [ToolsTopvisor.get_topvisor_projects, ToolsTopvisor.projects_core,
        pyAndIn, pyIn, ht, herr, hres]

/-- C2, witness: the amended theorem instantiated at the concrete
already-normalized success envelope with an empty project list. -/
theorem c2_witness :
    ToolsTopvisor.get_topvisor_projects
      (.ok (.obj [("status", .str "success"), ("projects", .arr []),
                  ("total_count", .int 0)])) =
      [("status", .str "error"), ("message", .str "Failed to get project data"),
       ("help", .str "Check TOPVISOR_SETUP.md file for API key setup")] :=
  c2_amended
    [("status", .str "success"), ("projects", .arr []), ("total_count", .int 0)]
    (by simp) rfl rfl

/-- C3, counterexample.  Calling the src/tools/ahrefs.py implementation of
get_ahrefs_refdomains with target "example.com", limit 1 and a provider
response of HTTP 200 carrying a one-entry refdomains array yields a
success envelope WITHOUT any total_count field, refuting the claim that
the envelope carries total_count = 1. -/
theorem c3_counterexample :
    ToolsAhrefs.get_ahrefs_refdomains "example.com" 1
      (.ok (.obj [("refdomains",
        JVal.arr [.obj [("domain", .str "ref.example.org"),
                        ("domain_rating", .int 93)]])])) =
      [("status", .str "success"), ("target", .str "example.com"),
       ("refdomains", .arr [.obj [("domain", .str "ref.example.org"),
                                  ("domain_rating", .int 93)]]),
       ("limit", .int 1), ("order_by", .str "domain_rating:desc")] ∧
    alHasKey (ToolsAhrefs.get_ahrefs_refdomains "example.com" 1
      (.ok (.obj [("refdomains",
        JVal.arr [.obj [("domain", .str "ref.example.org"),
                        ("domain_rating", .int 93)]])]))) "total_count" = false :=
  ⟨rfl, rfl⟩

/-- C3, amended.  For a call with target "example.com" and limit 1 against
a provider returning HTTP 200 with a one-entry refdomains array: the
src/tools/ahrefs.py implementation of the tool returns the success
envelope {status, target, refdomains, limit, order_by} with the one-entry
array and no total_count field at all, while the duplicate of the tool
registered by src/research_server.py returns the same envelope extended
with total_count = 1, computed as the length of the returned array. -/
theorem c3_amended (entry : JVal) :
    ToolsAhrefs.get_ahrefs_refdomains "example.com" 1
      (.ok (.obj [("refdomains", JVal.arr [entry])])) =
      [("status", .str "success"), ("target", .str "example.com"),
       ("refdomains", .arr [entry]), ("limit", .int 1),
       ("order_by", .str "domain_rating:desc")] ∧
    alHasKey (ToolsAhrefs.get_ahrefs_refdomains "example.com" 1
      (.ok (.obj [("refdomains", JVal.arr [entry])]))) "total_count" = false ∧
    ResearchServer.get_ahrefs_refdomains "example.com" 1 "domain_rating:desc"
      (.ok (.obj [("refdomains", JVal.arr [entry])])) =
      [("status", .str "success"), ("target", .str "example.com"),
       ("refdomains", .arr [entry]), ("total_count", .int 1),
       ("limit", .int 1), ("order_by", .str "domain_rating:desc")] :=
  ⟨rfl, rfl, rfl⟩

/-- Mutual exclusivity of a success status and an "error" key in one
envelope dictionary: the property the spec states for ResultEnvelope. -/
def envMutex (d : Dict) : Prop :=
  (alGet d "status" = some (.str "success") → alHasKey d "error" = false) ∧
  (alHasKey d "error" = true → alGet d "status" ≠ some (.str "success"))

/-- An envelope with no "error" key at all satisfies the mutual-exclusivity
property. -/
theorem envMutex_of_noErr (d : Dict) (h : alHasKey d "error" = false) : envMutex d := by
  refine ⟨fun _ => h, fun he => ?_⟩
  rw [he] at h
  simp at h

theorem noErr_check_topvisor_setup_core (call : Except String JVal) (d : Dict)
    (h : ToolsTopvisor.check_setup_core call = .ok d) : alHasKey d "error" = false := by
  unfold ToolsTopvisor.check_setup_core at h
  repeat' split at h
  all_goals try exact Except.noConfusion h
  all_goals (injection h with h2; subst h2; rfl)

theorem noErr_projects_core (call : Except String JVal) (d : Dict)
    (h : ToolsTopvisor.projects_core call = .ok d) : alHasKey d "error" = false := by
  unfold ToolsTopvisor.projects_core at h
  repeat' split at h
  all_goals try exact Except.noConfusion h
  all_goals (injection h with h2; subst h2; rfl)

theorem noErr_keywords_core (project_id : Int) (call : Except String JVal) (d : Dict)
    (h : ToolsTopvisor.keywords_core project_id call = .ok d) :
    alHasKey d "error" = false := by
  unfold ToolsTopvisor.keywords_core at h
  repeat' split at h
  all_goals try exact Except.noConfusion h
  all_goals (injection h with h2; subst h2; rfl)

theorem noErr_positions_history_core (project_id : Int) (regions_indexes : List String)
    (date1 date2 : Option String) (limit offset : Int) (call : Except String JVal)
    (d : Dict)
    (h : ToolsTopvisor.positions_history_core project_id regions_indexes
          date1 date2 limit offset call = .ok d) :
    alHasKey d "error" = false := by
  unfold ToolsTopvisor.positions_history_core at h
  simp only [] at h
  repeat' split at h
  all_goals try exact Except.noConfusion h
  all_goals (injection h with h2; subst h2; rfl)

theorem noErr_positions_summary_core (project_id : Int) (date1 date2 : Option String)
    (call : Except String JVal) (d : Dict)
    (h : ToolsTopvisor.positions_summary_core project_id date1 date2 call = .ok d) :
    alHasKey d "error" = false := by
  unfold ToolsTopvisor.positions_summary_core at h
  repeat' split at h
  all_goals try exact Except.noConfusion h
  all_goals (injection h with h2; subst h2; rfl)

theorem noErr_competitors_core (project_id : Int) (call : Except String JVal) (d : Dict)
    (h : ToolsTopvisor.competitors_core project_id call = .ok d) :
    alHasKey d "error" = false := by
  unfold ToolsTopvisor.competitors_core at h
  repeat' split at h
  all_goals try exact Except.noConfusion h
  all_goals (injection h with h2; subst h2; rfl)

theorem noErr_regions_core (project_id : Int) (call : Except String JVal) (d : Dict)
    (h : ToolsTopvisor.regions_core project_id call = .ok d) :
    alHasKey d "error" = false := by
  unfold ToolsTopvisor.regions_core at h
  repeat' split at h
  all_goals try exact Except.noConfusion h
  all_goals (injection h with h2; subst h2; rfl)

theorem noErr_folders_core (project_id : Int) (call : Except String JVal) (d : Dict)
    (h : ToolsTopvisor.folders_core project_id call = .ok d) :
    alHasKey d "error" = false := by
  unfold ToolsTopvisor.folders_core at h
  repeat' split at h
  all_goals try exact Except.noConfusion h
  all_goals (injection h with h2; subst h2; rfl)

theorem noErr_groups_core (project_id : Int) (folder_id : Option Int)
    (call : Except String JVal) (d : Dict)
    (h : ToolsTopvisor.groups_core project_id folder_id call = .ok d) :
    alHasKey d "error" = false := by
  unfold ToolsTopvisor.groups_core at h
  repeat' split at h
  all_goals try exact Except.noConfusion h
  all_goals (injection h with h2; subst h2; rfl)

theorem noErr_balance_core (call : Except String JVal) (d : Dict)
    (h : ToolsTopvisor.balance_core call = .ok d) : alHasKey d "error" = false := by
  unfold ToolsTopvisor.balance_core at h
  repeat' split at h
  all_goals try exact Except.noConfusion h
  all_goals (injection h with h2; subst h2; rfl)

theorem noErr_ah_check_setup_core (call : Except String JVal) (d : Dict)
    (h : ToolsAhrefs.check_setup_core call = .ok d) : alHasKey d "error" = false := by
  unfold ToolsAhrefs.check_setup_core at h
  repeat' split at h
  all_goals try exact Except.noConfusion h
  all_goals (injection h with h2; subst h2; rfl)

theorem noErr_ah_refdomains_core (target : String) (limit : Int)
    (call : Except String JVal) (d : Dict)
    (h : ToolsAhrefs.refdomains_core target limit call = .ok d) :
    alHasKey d "error" = false := by
  unfold ToolsAhrefs.refdomains_core at h
  repeat' split at h
  all_goals try exact Except.noConfusion h
  all_goals (injection h with h2; subst h2; rfl)

theorem noErr_ah_backlinks_core (target : String) (limit : Int)
    (call : Except String JVal) (d : Dict)
    (h : ToolsAhrefs.backlinks_core target limit call = .ok d) :
    alHasKey d "error" = false := by
  unfold ToolsAhrefs.backlinks_core at h
  repeat' split at h
  all_goals try exact Except.noConfusion h
  all_goals (injection h with h2; subst h2; rfl)

theorem noErr_ah_organic_core (target : String) (limit : Int) (date : Option String)
    (call : Except String JVal) (d : Dict)
    (h : ToolsAhrefs.organic_core target limit date call = .ok d) :
    alHasKey d "error" = false := by
  unfold ToolsAhrefs.organic_core at h
  repeat' split at h
  all_goals try exact Except.noConfusion h
  all_goals (injection h with h2; subst h2; rfl)

theorem noErr_rs_refdomains_core (target : String) (limit : Int) (order_by : String)
    (call : Except String JVal) (d : Dict)
    (h : ResearchServer.refdomains_core target limit order_by call = .ok d) :
    alHasKey d "error" = false := by
  unfold ResearchServer.refdomains_core at h
  repeat' split at h
  all_goals try exact Except.noConfusion h
  all_goals (injection h with h2; subst h2; rfl)

theorem noErr_rs_backlinks_core (target : String) (limit : Int) (order_by : String)
    (call : Except String JVal) (d : Dict)
    (h : ResearchServer.backlinks_core target limit order_by call = .ok d) :
    alHasKey d "error" = false := by
  unfold ResearchServer.backlinks_core at h
  repeat' split at h
  all_goals try exact Except.noConfusion h
  all_goals (injection h with h2; subst h2; rfl)

theorem noErr_rs_organic_core (target : String) (limit : Int) (order_by : String)
    (date : Option String) (call : Except String JVal) (d : Dict)
    (h : ResearchServer.organic_core target limit order_by date call = .ok d) :
    alHasKey d "error" = false := by
  unfold ResearchServer.organic_core at h
  repeat' split at h
  all_goals try exact Except.noConfusion h
  all_goals (injection h with h2; subst h2; rfl)

theorem noErr_rs_regions_core (project_id : Int) (call : Except String JVal) (d : Dict)
    (h : ResearchServer.regions_core project_id call = .ok d) :
    alHasKey d "error" = false := by
  unfold ResearchServer.regions_core at h
  repeat' split at h
  all_goals try exact Except.noConfusion h
  all_goals (injection h with h2; subst h2; rfl)

theorem noErr_check_topvisor_setup (env_file : Bool) (api_key : Option String)
    (call : Except String JVal) :
    alHasKey (ToolsTopvisor.check_topvisor_setup env_file api_key call) "error" = false := by
  unfold ToolsTopvisor.check_topvisor_setup
  by_cases hk : (!(pyTruthyStr api_key)) = true
  · rw [if_pos hk]
    rfl
  · rw [if_neg hk]
    cases hcore : ToolsTopvisor.check_setup_core call with
    | ok d => exact noErr_check_topvisor_setup_core call d hcore
    | error e => rfl

theorem noErr_get_topvisor_projects (call : Except String JVal) :
    alHasKey (ToolsTopvisor.get_topvisor_projects call) "error" = false := by
  unfold ToolsTopvisor.get_topvisor_projects
  cases hcore : ToolsTopvisor.projects_core call with
  | ok d => exact noErr_projects_core call d hcore
  | error e => rfl

theorem noErr_get_topvisor_keywords (project_id : Int) (call : Except String JVal) :
    alHasKey (ToolsTopvisor.get_topvisor_keywords project_id call) "error" = false := by
  unfold ToolsTopvisor.get_topvisor_keywords
  cases hcore : ToolsTopvisor.keywords_core project_id call with
  | ok d => exact noErr_keywords_core project_id call d hcore
  | error e => rfl

theorem noErr_get_topvisor_positions_history (project_id : Int)
    (regions_indexes : List String) (date1 date2 : Option String)
    (limit offset : Int) (call : Except String JVal) :
    alHasKey (ToolsTopvisor.get_topvisor_positions_history project_id regions_indexes
      date1 date2 limit offset call) "error" = false := by
  unfold ToolsTopvisor.get_topvisor_positions_history
  cases hcore : ToolsTopvisor.positions_history_core project_id regions_indexes
      date1 date2 limit offset call with
  | ok d =>
    exact noErr_positions_history_core project_id regions_indexes date1 date2
      limit offset call d hcore
  | error e => rfl

theorem noErr_get_topvisor_positions_summary (project_id : Int)
    (date1 date2 : Option String) (call : Except String JVal) :
    alHasKey (ToolsTopvisor.get_topvisor_positions_summary project_id date1 date2 call)
      "error" = false := by
  unfold ToolsTopvisor.get_topvisor_positions_summary
  cases hcore : ToolsTopvisor.positions_summary_core project_id date1 date2 call with
  | ok d => exact noErr_positions_summary_core project_id date1 date2 call d hcore
  | error e => rfl

theorem noErr_get_topvisor_competitors (project_id : Int) (call : Except String JVal) :
    alHasKey (ToolsTopvisor.get_topvisor_competitors project_id call) "error" = false := by
  unfold ToolsTopvisor.get_topvisor_competitors
  cases hcore : ToolsTopvisor.competitors_core project_id call with
  | ok d => exact noErr_competitors_core project_id call d hcore
  | error e => rfl

theorem noErr_get_topvisor_regions (project_id : Int) (call : Except String JVal) :
    alHasKey (ToolsTopvisor.get_topvisor_regions project_id call) "error" = false := by
  unfold ToolsTopvisor.get_topvisor_regions
  cases hcore : ToolsTopvisor.regions_core project_id call with
  | ok d => exact noErr_regions_core project_id call d hcore
  | error e => rfl

theorem noErr_get_topvisor_keyword_folders (project_id : Int) (call : Except String JVal) :
    alHasKey (ToolsTopvisor.get_topvisor_keyword_folders project_id call) "error" = false := by
  unfold ToolsTopvisor.get_topvisor_keyword_folders
  cases hcore : ToolsTopvisor.folders_core project_id call with
  | ok d => exact noErr_folders_core project_id call d hcore
  | error e => rfl

theorem noErr_get_topvisor_keyword_groups (project_id : Int) (folder_id : Option Int)
    (call : Except String JVal) :
    alHasKey (ToolsTopvisor.get_topvisor_keyword_groups project_id folder_id call)
      "error" = false := by
  unfold ToolsTopvisor.get_topvisor_keyword_groups
  cases hcore : ToolsTopvisor.groups_core project_id folder_id call with
  | ok d => exact noErr_groups_core project_id folder_id call d hcore
  | error e => rfl

theorem noErr_get_topvisor_balance (call : Except String JVal) :
    alHasKey (ToolsTopvisor.get_topvisor_balance call) "error" = false := by
  unfold ToolsTopvisor.get_topvisor_balance
  cases hcore : ToolsTopvisor.balance_core call with
  | ok d => exact noErr_balance_core call d hcore
  | error e => rfl

theorem noErr_get_topvisor_project_keywords (project_id : Int)
    (call : Except String JVal) :
    alHasKey (ToolsTopvisor.get_topvisor_project_keywords project_id call)
      "error" = false := by
  unfold ToolsTopvisor.get_topvisor_project_keywords
  cases call with
  | ok result => rfl
  | error e => rfl

theorem noErr_check_ahrefs_setup (env_file : Bool) (api_key : Option String)
    (call : Except String JVal) :
    alHasKey (ToolsAhrefs.check_ahrefs_setup env_file api_key call) "error" = false := by
  unfold ToolsAhrefs.check_ahrefs_setup
  by_cases hk : (!(pyTruthyStr api_key)) = true
  · rw [if_pos hk]
    rfl
  · rw [if_neg hk]
    cases hcore : ToolsAhrefs.check_setup_core call with
    | ok d => exact noErr_ah_check_setup_core call d hcore
    | error e => rfl

theorem noErr_get_ahrefs_refdomains (target : String) (limit : Int)
    (call : Except String JVal) :
    alHasKey (ToolsAhrefs.get_ahrefs_refdomains target limit call) "error" = false := by
  unfold ToolsAhrefs.get_ahrefs_refdomains
  cases hcore : ToolsAhrefs.refdomains_core target limit call with
  | ok d => exact noErr_ah_refdomains_core target limit call d hcore
  | error e => rfl

theorem noErr_get_ahrefs_backlinks (target : String) (limit : Int)
    (call : Except String JVal) :
    alHasKey (ToolsAhrefs.get_ahrefs_backlinks target limit call) "error" = false := by
  unfold ToolsAhrefs.get_ahrefs_backlinks
  cases hcore : ToolsAhrefs.backlinks_core target limit call with
  | ok d => exact noErr_ah_backlinks_core target limit call d hcore
  | error e => rfl

theorem noErr_get_ahrefs_organic_keywords (target : String) (limit : Int)
    (date : Option String) (call : Except String JVal) :
    alHasKey (ToolsAhrefs.get_ahrefs_organic_keywords target limit date call)
      "error" = false := by
  unfold ToolsAhrefs.get_ahrefs_organic_keywords
  cases hcore : ToolsAhrefs.organic_core target limit date call with
  | ok d => exact noErr_ah_organic_core target limit date call d hcore
  | error e => rfl

theorem noErr_rs_get_ahrefs_refdomains (target : String) (limit : Int)
    (order_by : String) (call : Except String JVal) :
    alHasKey (ResearchServer.get_ahrefs_refdomains target limit order_by call)
      "error" = false := by
  unfold ResearchServer.get_ahrefs_refdomains
  cases hcore : ResearchServer.refdomains_core target limit order_by call with
  | ok d => exact noErr_rs_refdomains_core target limit order_by call d hcore
  | error e => rfl

theorem noErr_rs_get_ahrefs_backlinks (target : String) (limit : Int)
    (order_by : String) (call : Except String JVal) :
    alHasKey (ResearchServer.get_ahrefs_backlinks target limit order_by call)
      "error" = false := by
  unfold ResearchServer.get_ahrefs_backlinks
  cases hcore : ResearchServer.backlinks_core target limit order_by call with
  | ok d => exact noErr_rs_backlinks_core target limit order_by call d hcore
  | error e => rfl

theorem noErr_rs_get_ahrefs_organic_keywords (target : String) (limit : Int)
    (order_by : String) (date : Option String) (call : Except String JVal) :
    alHasKey (ResearchServer.get_ahrefs_organic_keywords target limit order_by date call)
      "error" = false := by
  unfold ResearchServer.get_ahrefs_organic_keywords
  cases hcore : ResearchServer.organic_core target limit order_by date call with
  | ok d => exact noErr_rs_organic_core target limit order_by date call d hcore
  | error e => rfl

theorem noErr_rs_get_topvisor_regions (project_id : Int) (call : Except String JVal) :
    alHasKey (ResearchServer.get_topvisor_regions project_id call) "error" = false := by
  unfold ResearchServer.get_topvisor_regions
  cases hcore : ResearchServer.regions_core project_id call with
  | ok d => exact noErr_rs_regions_core project_id call d hcore
  | error e => rfl

/-- C9.  For every envelope returned by every tool function of the
repository (the fifteen tools of src/tools/topvisor.py and
src/tools/ahrefs.py, the deviating duplicates in src/research_server.py,
the unreachable outer except envelopes of the two setup-check tools, and
the paper record of the arXiv tools): a status of "success" excludes an
"error" key, and an "error" key excludes a "success" status.  In fact no
tool envelope ever carries a top-level "error" key: errors are reported
through status and message fields. -/
theorem c9_envelope_mutual_exclusion
    (env_file : Bool) (api_key : Option String) (call : Except String JVal)
    (project_id limit offset : Int) (folder_id : Option Int)
    (regions_indexes : List String) (date1 date2 : Option String)
    (target order_by excMsg : String)
    (title summary pdf_url published : String) (authors : List String) :
    envMutex (ToolsTopvisor.check_topvisor_setup env_file api_key call) ∧
    envMutex (ToolsTopvisor.check_topvisor_setup_outer_exc excMsg) ∧
    envMutex (ToolsTopvisor.get_topvisor_projects call) ∧
    envMutex (ToolsTopvisor.get_topvisor_keywords project_id call) ∧
    envMutex (ToolsTopvisor.get_topvisor_positions_history project_id regions_indexes
      date1 date2 limit offset call) ∧
    envMutex (ToolsTopvisor.get_topvisor_positions_summary project_id date1 date2 call) ∧
    envMutex (ToolsTopvisor.get_topvisor_competitors project_id call) ∧
    envMutex (ToolsTopvisor.get_topvisor_regions project_id call) ∧
    envMutex (ToolsTopvisor.get_topvisor_keyword_folders project_id call) ∧
    envMutex (ToolsTopvisor.get_topvisor_keyword_groups project_id folder_id call) ∧
    envMutex (ToolsTopvisor.get_topvisor_balance call) ∧
    envMutex (ToolsTopvisor.get_topvisor_project_keywords project_id call) ∧
    envMutex (ToolsAhrefs.check_ahrefs_setup env_file api_key call) ∧
    envMutex (ToolsAhrefs.check_ahrefs_setup_outer_exc excMsg) ∧
    envMutex (ToolsAhrefs.get_ahrefs_refdomains target limit call) ∧
    envMutex (ToolsAhrefs.get_ahrefs_backlinks target limit call) ∧
    envMutex (ToolsAhrefs.get_ahrefs_organic_keywords target limit date1 call) ∧
    envMutex (ResearchServer.get_ahrefs_refdomains target limit order_by call) ∧
    envMutex (ResearchServer.get_ahrefs_backlinks target limit order_by call) ∧
    envMutex (ResearchServer.get_ahrefs_organic_keywords target limit order_by date1 call) ∧
    envMutex (ResearchServer.get_topvisor_regions project_id call) ∧
    envMutex (ResearchServer.paper_info_record title authors summary pdf_url published) :=
  ⟨envMutex_of_noErr _ (noErr_check_topvisor_setup env_file api_key call),
   envMutex_of_noErr _ rfl,
   envMutex_of_noErr _ (noErr_get_topvisor_projects call),
   envMutex_of_noErr _ (noErr_get_topvisor_keywords project_id call),
   envMutex_of_noErr _ (noErr_get_topvisor_positions_history project_id regions_indexes
     date1 date2 limit offset call),
   envMutex_of_noErr _ (noErr_get_topvisor_positions_summary project_id date1 date2 call),
   envMutex_of_noErr _ (noErr_get_topvisor_competitors project_id call),
   envMutex_of_noErr _ (noErr_get_topvisor_regions project_id call),
   envMutex_of_noErr _ (noErr_get_topvisor_keyword_folders project_id call),
   envMutex_of_noErr _ (noErr_get_topvisor_keyword_groups project_id folder_id call),
   envMutex_of_noErr _ (noErr_get_topvisor_balance call),
   envMutex_of_noErr _ (noErr_get_topvisor_project_keywords project_id call),
   envMutex_of_noErr _ (noErr_check_ahrefs_setup env_file api_key call),
   envMutex_of_noErr _ rfl,
   envMutex_of_noErr _ (noErr_get_ahrefs_refdomains target limit call),
   envMutex_of_noErr _ (noErr_get_ahrefs_backlinks target limit call),
   envMutex_of_noErr _ (noErr_get_ahrefs_organic_keywords target limit date1 call),
   envMutex_of_noErr _ (noErr_rs_get_ahrefs_refdomains target limit order_by call),
   envMutex_of_noErr _ (noErr_rs_get_ahrefs_backlinks target limit order_by call),
   envMutex_of_noErr _ (noErr_rs_get_ahrefs_organic_keywords target limit order_by date1 call),
   envMutex_of_noErr _ (noErr_rs_get_topvisor_regions project_id call),
   envMutex_of_noErr _ rfl⟩
